import Mathlib

/-!
# HealthBridge dataset-adapter layer: a shallow embedding

This file embeds, in Lean 4, the parts of the HealthBridge repository that
the verified properties talk about:

* the session-state storage layer (`src/data/storage.py`);
* the data-loading orchestrator (`load_dataset_data` in the same file);
* the Fitbit Kaggle wearable adapter
  (`src/data/adapters/wearables/fitbit_kaggle.py`);
* the OhioT1DM CGM adapter's daily merge
  (`src/data/adapters/cgm/ohio_t1dm.py`);
* the NSRR MESA sleep adapter
  (`src/data/adapters/sleep/nsrr_mesa.py`);
* the 1000 Genomes ancestry synthesis
  (`src/data/adapters/genetics/thousand_genomes.py`);
* the shared heart-rate daily aggregation of the two wearable adapters.

Modelling conventions:

* Python `dict`s with string keys (the normalized daily health records and
  session state payloads) are association lists `List (String × Value)`,
  respecting insertion order; assignment to an existing key updates the
  binding in place, assignment to a fresh key appends (Python 3.7+ dict
  semantics).
* Python numbers are exact: `int` is `ℤ`, `float` is `ℚ`.  The single
  non-rational value produced by the code (`variance ** 0.5` in the CGM
  adapter) is kept symbolic by the `Value.vsqrt` constructor, which carries
  the radicand.
* Calendar dates are encoded as naturals.  The Fitbit adapter encodes a
  parsed `(y, m, d)` as `y * 512 + m * 32 + d` (order-isomorphic to
  lexicographic `(y, m, d)` for in-range month/day).  The MESA adapter
  only ever uses `date(2012, 1, 1) + timedelta(days = n)`, which is encoded
  as the day offset `n` itself.
* Python exceptions escaping a function are modelled with `Except String`;
  the string names the Python exception class.
* Python's `sorted` (a stable ascending sort) is modelled by
  `List.insertionSort (· ≤ ·)`, which is also stable for a total `≤`.
-/

/-- A Python value stored in a normalized health record or a session slot:
`None`, an `int`, a `float` (exact rational), the float square root of a
rational (kept symbolic), or a `datetime.date` (encoded as a natural). -/
inductive Value where
  | vnone : Value
  | vint : Int → Value
  | vrat : Rat → Value
  | vsqrt : Rat → Value
  | vdate : Nat → Value
  deriving DecidableEq, Repr

/-- A Python dict with string keys, as an insertion-ordered association list. -/
abbrev PyDict := List (String × Value)

/-- Key lookup, `d.get(k)` / `d[k]` on a dict known to hold the key. -/
def dictGet (r : PyDict) (k : String) : Option Value :=
  (r.find? (fun p => p.1 = k)).map (fun p => p.2)

/-- Assignment `d[k] = v`: updates the binding in place when the key exists,
appends otherwise (Python 3.7+ insertion-order semantics). -/
def dictSet (r : PyDict) (k : String) (v : Value) : PyDict :=
  if r.any (fun p => p.1 = k) then
    r.map (fun p => if p.1 = k then (k, v) else p)
  else
    r ++ [(k, v)]

/-- `list(d.keys())` in insertion order. -/
def dictKeys (r : PyDict) : List String := r.map (fun p => p.1)

/-- The 26 canonical field names of a normalized daily health record, in the
order `BaseDatasetAdapter._create_empty_record` lists them. -/
def canonical_fields : List String :=
  ["date", "sleep_duration", "sleep_score", "deep_sleep", "rem_sleep",
   "light_sleep", "awake_time", "resting_hr", "hrv", "hr_min", "hr_max",
   "steps", "active_calories", "total_calories", "distance_km",
   "floors_climbed", "active_minutes", "sedentary_minutes", "glucose_avg",
   "glucose_min", "glucose_max", "glucose_std", "time_in_range",
   "readiness_score", "stress_score", "recovery_score"]

/-- `BaseDatasetAdapter._create_empty_record` (base.py:196-225): every
canonical field present, `date` set, all other values `None`. -/
def create_empty_record (record_date : Nat) : PyDict :=
  [("date", Value.vdate record_date),
   ("sleep_duration", Value.vnone), ("sleep_score", Value.vnone),
   ("deep_sleep", Value.vnone), ("rem_sleep", Value.vnone),
   ("light_sleep", Value.vnone), ("awake_time", Value.vnone),
   ("resting_hr", Value.vnone), ("hrv", Value.vnone),
   ("hr_min", Value.vnone), ("hr_max", Value.vnone),
   ("steps", Value.vnone), ("active_calories", Value.vnone),
   ("total_calories", Value.vnone), ("distance_km", Value.vnone),
   ("floors_climbed", Value.vnone), ("active_minutes", Value.vnone),
   ("sedentary_minutes", Value.vnone), ("glucose_avg", Value.vnone),
   ("glucose_min", Value.vnone), ("glucose_max", Value.vnone),
   ("glucose_std", Value.vnone), ("time_in_range", Value.vnone),
   ("readiness_score", Value.vnone), ("stress_score", Value.vnone),
   ("recovery_score", Value.vnone)]

/-- `Optional[int]` payload lifted into a record `Value`. -/
def optIntV : Option Int → Value
  | Option.none => Value.vnone
  | Option.some i => Value.vint i

/-- `Optional[float]` payload lifted into a record `Value`. -/
def optRatV : Option Rat → Value
  | Option.none => Value.vnone
  | Option.some q => Value.vrat q

section Storage

/-!
## Session-state storage (`src/data/storage.py`)

The Streamlit `st.session_state` slots touched by the storage helpers.
`init_storage` sets every slot; the orchestrator and the dataset/subject
setters mutate them.
-/

/-- The application session state: the data slots of `st.session_state`
that `storage.py` reads and writes. -/
structure AppState where
  health_data : Option (List PyDict)
  patient_profile : Option PyDict
  lab_data : Option (List PyDict)
  genetic_data : Option PyDict
  workouts : Option (List PyDict)
  data_loaded : Bool
  active_dataset : String
  active_subject : Option String
  deriving DecidableEq, Repr

/-- `storage.SYNTHETIC_DATASET_ID`. -/
def SYNTHETIC_DATASET_ID : String := "synthetic"

/-- `storage.set_health_data`. -/
def set_health_data (data : List PyDict) (s : AppState) : AppState :=
  { s with health_data := some data }

/-- `storage.set_patient_profile`. -/
def set_patient_profile (profile : PyDict) (s : AppState) : AppState :=
  { s with patient_profile := some profile }

/-- `storage.set_lab_data`. -/
def set_lab_data (data : List PyDict) (s : AppState) : AppState :=
  { s with lab_data := some data }

/-- `storage.set_genetic_data`. -/
def set_genetic_data (data : PyDict) (s : AppState) : AppState :=
  { s with genetic_data := some data }

/-- `storage.set_workouts`. -/
def set_workouts (data : List PyDict) (s : AppState) : AppState :=
  { s with workouts := some data }

/-- `storage.mark_data_loaded`. -/
def mark_data_loaded (s : AppState) : AppState :=
  { s with data_loaded := true }

/-- `storage.clear_all_data` (storage.py:120-125): sets `health_data`,
`lab_data` and `patient_profile` to `None` and `data_loaded` to `False`.
It does not touch `genetic_data` or `workouts`. -/
def clear_all_data (s : AppState) : AppState :=
  { s with health_data := none, lab_data := none,
           patient_profile := none, data_loaded := false }

/-- `storage.set_active_dataset` (storage.py:145-149): stores the dataset id,
then calls `clear_all_data`. -/
def set_active_dataset (dataset_id : String) (s : AppState) : AppState :=
  clear_all_data { s with active_dataset := dataset_id }

/-- `storage.set_active_subject` (storage.py:157-161): stores the subject id,
then calls `clear_all_data`. -/
def set_active_subject (subject_id : Option String) (s : AppState) : AppState :=
  clear_all_data { s with active_subject := subject_id }

/-- A subject listed by an adapter (`base.Subject`), reduced to the id field,
which is all `load_dataset_data` reads. -/
structure Subject where
  id : String
  deriving DecidableEq, Repr

/-- An adapter as seen by the orchestrator: the results of its capability
calls for the session in question.  `is_available` and `list_subjects` are
the values the corresponding methods return; the loaders are functions of
the subject id, as in `BaseDatasetAdapter`. -/
structure Adapter where
  is_available : Bool
  list_subjects : List Subject
  load_health_data : String → List PyDict
  load_lab_data : String → Option (List PyDict)
  load_genetic_data : String → Option PyDict
  load_workouts : String → Option (List PyDict)
  get_subject_profile : String → Option PyDict

/-- Python truthiness of an `Optional` list (`None` and `[]` are falsy). -/
def truthyOptList {α : Type} (x : Option (List α)) : Bool :=
  match x with
  | Option.none => false
  | Option.some l => !l.isEmpty

/-- Python truthiness of an `Optional` dict (`None` and `{}` are falsy). -/
def truthyOptDict (x : Option PyDict) : Bool :=
  match x with
  | Option.none => false
  | Option.some d => !d.isEmpty

/-- `storage.load_dataset_data` (storage.py:189-246).  `reg` is
`registry.get` after `register_all_adapters()` (a pure map from dataset id
to adapter, `None` when unknown); `syntheticLoad` is the external
`_load_synthetic_data` collaborator, taken as a parameter because the claim
set only concerns the non-synthetic path.  Returns the Python return value
paired with the session state after the call. -/
def load_dataset_data (reg : String → Option Adapter)
    (syntheticLoad : AppState → Bool × AppState)
    (dataset_id : String) (subject_id : Option String)
    (s : AppState) : Bool × AppState :=
  if dataset_id = SYNTHETIC_DATASET_ID then
    syntheticLoad s
  else
    match reg dataset_id with
    | Option.none => (false, s)
    | Option.some adapter =>
      if !adapter.is_available then (false, s)
      else
        let sid? : Option String :=
          match subject_id with
          | Option.some sid => some sid
          | Option.none => (adapter.list_subjects.head?).map (fun x => x.id)
        match sid? with
        | Option.none => (false, s)
        | Option.some sid =>
          let health := adapter.load_health_data sid
          let s := if !health.isEmpty then set_health_data health s else s
          let lab := adapter.load_lab_data sid
          let s := if truthyOptList lab then set_lab_data (lab.getD []) s else s
          let gen := adapter.load_genetic_data sid
          let s := if truthyOptDict gen then set_genetic_data (gen.getD []) s else s
          let wk := adapter.load_workouts sid
          let s := if truthyOptList wk then set_workouts (wk.getD []) s else s
          let prof := adapter.get_subject_profile sid
          let s := if truthyOptDict prof then set_patient_profile (prof.getD []) s else s
          (true, mark_data_loaded s)

end Storage

section PyHelpers

/-!
## Python primitives used by the adapters
-/

/-- Decimal digits to a natural; `none` when empty or a non-digit occurs. -/
def digitsToNat : List Char → Option Nat
  | [] => Option.none
  | cs =>
    cs.foldl (fun acc c =>
      match acc with
      | Option.none => Option.none
      | Option.some n => if c.isDigit then some (n * 10 + (c.toNat - 48)) else Option.none)
      (some 0)

/-- Python `int(s)` on a string: optional sign then decimal digits
(`ValueError` on anything else, modelled as `none`). -/
def pyIntOfString (s : String) : Option Int :=
  match s.data with
  | '-' :: rest => (digitsToNat rest).map (fun n => -(n : Int))
  | '+' :: rest => (digitsToNat rest).map (fun n => (n : Int))
  | cs => (digitsToNat cs).map (fun n => (n : Int))

/-- Python `float(s)` on a plain decimal literal `[-]ddd[.ddd]`, as an exact
rational (`ValueError`, modelled as `none`, otherwise).  The exotic float
syntaxes (`inf`, `nan`, exponents) never occur in the health datasets the
claims range over and are conservatively treated as unparseable. -/
def pyFloatOfString (s : String) : Option Rat :=
  let core : List Char → Option Rat := fun cs =>
    match cs.splitOn '.' with
    | [intPart] => (digitsToNat intPart).map (fun n => (n : Rat))
    | [intPart, fracPart] =>
      match intPart, fracPart with
      | [], [] => Option.none
      | [], f => (digitsToNat f).map (fun n => (n : Rat) / (10 : Rat) ^ f.length)
      | i, [] => (digitsToNat i).map (fun n => (n : Rat))
      | i, f =>
        match digitsToNat i, digitsToNat f with
        | Option.some a, Option.some b =>
          some ((a : Rat) + (b : Rat) / (10 : Rat) ^ f.length)
        | _, _ => Option.none
    | _ => Option.none
  match s.data with
  | '-' :: rest => (core rest).map (fun q => -q)
  | '+' :: rest => core rest
  | cs => core cs

/-- Python `int(x)` on a float: truncation toward zero
(`⌈q⌉ = -⌊-q⌋` spells the negative case with the floor). -/
def ratTruncate (q : Rat) : Int :=
  if 0 ≤ q then ⌊q⌋ else -⌊-q⌋

/-- A CSV row as handed out by `csv.DictReader`: column name to cell text.
A column absent from the header is an absent key. -/
abbrev Row := List (String × String)

/-- `row.get(k)`: `None` when the column is absent. -/
def rowGet (r : Row) (k : String) : Option String :=
  (r.find? (fun p => p.1 = k)).map (fun p => p.2)

/-- Python `a or b` on two `row.get` results: the left value unless it is
falsy (`None` or the empty string). -/
def pyOrStr (a b : Option String) : Option String :=
  match a with
  | Option.none => b
  | Option.some s => if s = "" then b else some s

/-- `a or ''` collapsed to a plain string. -/
def pyOrStrD (a : Option String) (d : String) : String :=
  (pyOrStr a (some d)).getD d

/-- The shared `_safe_int` helper (fitbit_kaggle.py:286-294, nsrr_mesa.py
:300-308): `None`/empty stays `None`, otherwise `int(float(value))`,
swallowing parse failures. -/
def safe_int (v : Option String) : Option Int :=
  match v with
  | Option.none => Option.none
  | Option.some s =>
    if s = "" then Option.none
    else (pyFloatOfString s).map ratTruncate

/-- The shared `_safe_float` helper (fitbit_kaggle.py:296-304, nsrr_mesa.py
:290-298). -/
def safe_float (v : Option String) : Option Rat :=
  match v with
  | Option.none => Option.none
  | Option.some s =>
    if s = "" then Option.none
    else pyFloatOfString s

/-- Python truthiness of an `Optional[float]`: `None` and `0.0` are falsy. -/
def truthyQ (v : Option Rat) : Bool :=
  match v with
  | Option.none => false
  | Option.some q => decide (q ≠ 0)

/-- Python truthiness of an `Optional[int]`. -/
def truthyZ (v : Option Int) : Bool :=
  match v with
  | Option.none => false
  | Option.some i => decide (i ≠ 0)

/-- Python `min` over a nonempty list (first element as seed). -/
def listMin : List Int → Option Int
  | [] => Option.none
  | x :: xs => some (xs.foldl min x)

/-- Python `max` over a nonempty list. -/
def listMax : List Int → Option Int
  | [] => Option.none
  | x :: xs => some (xs.foldl max x)

/-- Association-list lookup for date-keyed tributary maps. -/
def alGet {α : Type} (l : List (Nat × α)) (k : Nat) : Option α :=
  (l.find? (fun p => p.1 = k)).map (fun p => p.2)

/-- Dict assignment for date-keyed tributary maps (`result[d] = v`). -/
def alSet {α : Type} (l : List (Nat × α)) (k : Nat) (v : α) : List (Nat × α) :=
  if l.any (fun p => p.1 = k) then
    l.map (fun p => if p.1 = k then (k, v) else p)
  else
    l ++ [(k, v)]

/-- `defaultdict(list)` append (`result[d].append(v)`). -/
def alAppend {α : Type} (l : List (Nat × List α)) (k : Nat) (v : α) :
    List (Nat × List α) :=
  match alGet l k with
  | Option.none => l ++ [(k, [v])]
  | Option.some vs => alSet l k (vs ++ [v])

/-- The keys of a date-keyed tributary map, in insertion order. -/
def alKeys {α : Type} (l : List (Nat × α)) : List Nat := l.map (fun p => p.1)

/-- `sorted(set(a) | set(b) | set(c))` on date keys: the ascending
duplicate-free sort of the union. -/
def sortedDateUnion (a b c : List Nat) : List Nat :=
  List.insertionSort (· ≤ ·) (a ++ b ++ c).dedup

end PyHelpers

section ThousandGenomes

/-!
## 1000 Genomes ancestry synthesis
(`src/data/adapters/genetics/thousand_genomes.py:235-268`)

`_generate_ancestry_composition` seeds Python's global PRNG with
`hash(pop)` — the *salted* built-in string hash, which varies from process
run to process run — and then draws one `random.uniform(-0.05, 0.05)`
variation per composition entry.  The embedding abstracts the seeded PRNG
as the stream `draws : Nat → ℚ` of uniform variates the run actually
produces (the i-th draw for the i-th composition entry); a fixed seed fixes
the stream, and a different `PYTHONHASHSEED` gives a different stream.
-/

/-- One entry of the per-super-population base composition table
(thousand_genomes.py:243-249). -/
def base_compositions (super_pop : String) : Option (List (String × Rat)) :=
  if super_pop = "AFR" then
    some [("African", 85/100), ("European", 10/100), ("Other", 5/100)]
  else if super_pop = "EUR" then
    some [("European", 90/100), ("Middle Eastern", 5/100), ("Other", 5/100)]
  else if super_pop = "EAS" then
    some [("East Asian", 90/100), ("Southeast Asian", 7/100), ("Other", 3/100)]
  else if super_pop = "SAS" then
    some [("South Asian", 85/100), ("Central Asian", 10/100), ("Other", 5/100)]
  else if super_pop = "AMR" then
    some [("Indigenous American", 40/100), ("European", 35/100),
          ("African", 20/100), ("Other", 5/100)]
  else Option.none

/-- Round-half-to-even to an integer, the rounding Python's `round` uses. -/
def roundHalfEven (q : Rat) : Int :=
  let f := ⌊q⌋
  let frac := q - (f : Rat)
  if frac < 1/2 then f
  else if 1/2 < frac then f + 1
  else if f % 2 = 0 then f else f + 1

/-- Python `round(x, 1)` on an exact rational. -/
def pyRound1 (q : Rat) : Rat :=
  (roundHalfEven (q * 10) : Rat) / 10

/-- `ThousandGenomesAdapter._generate_ancestry_composition`
(thousand_genomes.py:235-268), with the run's seeded uniform draws made
explicit: entry `i` of the composition is perturbed by `draws i` (each in
`[-0.05, 0.05]`), clamped at zero, the total is renormalized to 100 and
each percentage is rounded to one decimal. -/
def generate_ancestry_composition (draws : Nat → Rat)
    (pop super_pop : String) : List (String × Rat) :=
  let composition : List (String × Rat) :=
    match base_compositions super_pop with
    | Option.some c => c
    | Option.none => [("Unknown", 1)]
  let varied : List (String × Rat) :=
    composition.enum.map (fun p => (p.2.1, max 0 (p.2.2 + draws p.1)))
  let total : Rat := (varied.map (fun p => p.2)).sum
  varied.map (fun p => (p.1, pyRound1 (p.2 / total * 100)))

/-- `pop` is unused by `_generate_ancestry_composition` except through
`random.seed(hash(pop))`, which the `draws` stream models. -/
def ancestry_draws_in_range (draws : Nat → Rat) (n : Nat) : Prop :=
  ∀ i < n, -(5/100 : Rat) ≤ draws i ∧ draws i ≤ 5/100

end ThousandGenomes

section Fitbit

/-!
## Fitbit Kaggle adapter (`src/data/adapters/wearables/fitbit_kaggle.py`)

The three tributary CSV files are passed in as row lists (an absent file is
the empty list — `_find_file` returning `None` makes the loader return an
empty mapping, which the empty row list reproduces).
-/

/-- A `(year, month, day)` triple encoded so that the encoding is
order-isomorphic to lexicographic date order (`m ≤ 12 < 16`, `d ≤ 31 < 32`). -/
def mkDate (y m d : Nat) : Nat := y * 512 + m * 32 + d

/-- `datetime.strptime(s, '%m/%d/%Y').date()`: `none` models `ValueError`. -/
def parseDateMDY (s : String) : Option Nat :=
  match s.data.splitOn '/' with
  | [ms, ds, ys] =>
    match digitsToNat ms, digitsToNat ds, digitsToNat ys with
    | Option.some m, Option.some d, Option.some y =>
      if 1 ≤ m ∧ m ≤ 12 ∧ 1 ≤ d ∧ d ≤ 31 then some (mkDate y m d) else Option.none
    | _, _, _ => Option.none
  | _ => Option.none

/-- `datetime.strptime(s, '%Y-%m-%d').date()`. -/
def parseDateYMD (s : String) : Option Nat :=
  match s.data.splitOn '-' with
  | [ys, ms, ds] =>
    match digitsToNat ys, digitsToNat ms, digitsToNat ds with
    | Option.some y, Option.some m, Option.some d =>
      if 1 ≤ m ∧ m ≤ 12 ∧ 1 ≤ d ∧ d ≤ 31 then some (mkDate y m d) else Option.none
    | _, _, _ => Option.none
  | _ => Option.none

/-- Python `s.split()`: split on whitespace, dropping empty chunks. -/
def pySplitWs (s : String) : List String :=
  ((s.data.splitOn ' ').filter (fun w => !w.isEmpty)).map (fun w => String.mk w)

/-- Python `+` on two `Optional[int]`s: `TypeError` unless both are ints. -/
def pyAdd : Option Int → Option Int → Except String Int
  | Option.some a, Option.some b => Except.ok (a + b)
  | _, _ => Except.error "TypeError"

/-- `self._safe_int(row.get(k, 0))`: an absent column yields the default
`0` (an `int`, which `_safe_int` passes through), a present cell goes
through `_safe_int` (so an empty cell yields `None`). -/
def safe_int_d0 (r : Row) (k : String) : Option Int :=
  match rowGet r k with
  | Option.none => some 0
  | Option.some s => safe_int (some s)

/-- The per-day contribution of `_load_activity_data` (the inner dict built
at fitbit_kaggle.py:190-201). -/
structure ActivityFields where
  steps : Option Int
  distance_km : Option Rat
  active_calories : Option Int
  total_calories : Option Int
  active_minutes : Option Int
  sedentary_minutes : Option Int
  deriving DecidableEq, Repr

/-- One iteration of the `_load_activity_data` row loop
(fitbit_kaggle.py:178-201): skip on id mismatch or unparseable date
(both date formats tried), otherwise build the day's fields.  The
`active_minutes` sum `_safe_int(...) + _safe_int(...) + _safe_int(...)`
adds `Optional[int]`s with Python `+`, which raises `TypeError` when any
summand is `None` (e.g. an empty cell); that exception is outside the
`try` that guards only the date parse and so escapes the loader. -/
def fitbit_activity_row (subject_id : String) (row : Row) :
    Except String (Option (Nat × ActivityFields)) :=
  if rowGet row "Id" ≠ some subject_id then Except.ok Option.none
  else
    match (rowGet row "ActivityDate").bind
        (fun s => (parseDateMDY s).orElse (fun _ => parseDateYMD s)) with
    | Option.none => Except.ok Option.none
    | Option.some d => do
      let am ← pyAdd (safe_int_d0 row "VeryActiveMinutes")
                     (safe_int_d0 row "FairlyActiveMinutes")
      let am ← pyAdd (some am) (safe_int_d0 row "LightlyActiveMinutes")
      Except.ok (some (d,
        { steps := safe_int (rowGet row "TotalSteps"),
          distance_km := safe_float (rowGet row "TotalDistance"),
          active_calories := safe_int (rowGet row "Calories"),
          total_calories := safe_int (rowGet row "Calories"),
          active_minutes := some am,
          sedentary_minutes := safe_int (rowGet row "SedentaryMinutes") }))

/-- `FitbitKaggleAdapter._load_activity_data` (fitbit_kaggle.py:168-203):
fold the rows into a date-keyed mapping, later rows overwriting earlier
ones for the same date; a `TypeError` from a row aborts the whole load. -/
def fitbit_load_activity_data (subject_id : String) (rows : List Row) :
    Except String (List (Nat × ActivityFields)) :=
  rows.foldlM (fun acc row => do
    match ← fitbit_activity_row subject_id row with
    | Option.none => pure acc
    | Option.some (d, f) => pure (alSet acc d f)) []

/-- The per-day contribution of `_load_sleep_data`
(fitbit_kaggle.py:238-241). -/
structure SleepFields where
  sleep_duration : Option Rat
  sleep_score : Option Int
  deriving DecidableEq, Repr

/-- The field computation of `_load_sleep_data` (fitbit_kaggle.py:226-236):
hours asleep (`None` when `TotalMinutesAsleep` is falsy) and the efficiency
proxy score `min(100, int(total/time_in_bed*100*1.1))`. -/
def fitbit_sleep_fields (row : Row) : SleepFields :=
  let total_minutes := safe_float (rowGet row "TotalMinutesAsleep")
  let sleep_hours : Option Rat :=
    if truthyQ total_minutes then some (total_minutes.getD 0 / 60) else Option.none
  let sleep_score : Option Int :=
    if truthyQ total_minutes then
      let time_in_bed := safe_float (rowGet row "TotalTimeInBed")
      if truthyQ time_in_bed ∧ 0 < time_in_bed.getD 0 then
        let efficiency := total_minutes.getD 0 / time_in_bed.getD 0 * 100
        some (min 100 (ratTruncate (efficiency * (11/10))))
      else Option.none
    else Option.none
  { sleep_duration := sleep_hours, sleep_score := sleep_score }

/-- One iteration of the `_load_sleep_data` row loop
(fitbit_kaggle.py:215-241).  `row['SleepDay'].split()[0]` raises an
uncaught `IndexError` when the cell is empty or all spaces (the `except`
clause catches only `ValueError` and `KeyError`). -/
def fitbit_sleep_row (subject_id : String) (row : Row) :
    Except String (Option (Nat × SleepFields)) :=
  if rowGet row "Id" ≠ some subject_id then Except.ok Option.none
  else
    match rowGet row "SleepDay" with
    | Option.none => Except.ok Option.none
    | Option.some s =>
      match pySplitWs s with
      | [] => Except.error "IndexError"
      | w :: _ =>
        match parseDateMDY w with
        | Option.none => Except.ok Option.none
        | Option.some d => Except.ok (some (d, fitbit_sleep_fields row))

/-- `FitbitKaggleAdapter._load_sleep_data` (fitbit_kaggle.py:205-243). -/
def fitbit_load_sleep_data (subject_id : String) (rows : List Row) :
    Except String (List (Nat × SleepFields)) :=
  rows.foldlM (fun acc row => do
    match ← fitbit_sleep_row subject_id row with
    | Option.none => pure acc
    | Option.some (d, f) => pure (alSet acc d f)) []

/-- The per-day contribution of `_load_heart_rate_data`
(fitbit_kaggle.py:278-282). -/
structure HrFields where
  resting_hr : Option Int
  hr_min : Option Int
  hr_max : Option Int
  deriving DecidableEq, Repr

/-- The daily aggregation step of `_load_heart_rate_data`
(fitbit_kaggle.py:272-282): resting HR is the element at index
`max(0, int(n * 0.1))` of the ascending sort of the day's readings, plus
min/max passthrough.  `int(n * 0.1)` equals `n / 10` in natural division
for every feasible sample count (the float product only departs from
`n / 10` beyond 10^15 samples), and the index is in bounds for a nonempty
list, so the Python subscript cannot raise here. -/
def fitbit_hr_aggregate (hr_values : List Int) : HrFields :=
  let sorted_hr := List.insertionSort (· ≤ ·) hr_values
  let resting_idx := max 0 (sorted_hr.length / 10)
  { resting_hr := some (sorted_hr.getD resting_idx 0),
    hr_min := listMin hr_values,
    hr_max := listMax hr_values }

/-- One iteration of the collection loop of `_load_heart_rate_data`
(fitbit_kaggle.py:258-269): date from `row['Time'].split()[0]` (uncaught
`IndexError` on an empty cell), value from `int(row['Value'])`; `ValueError`
and `KeyError` skip the row. -/
def fitbit_hr_row (subject_id : String) (row : Row)
    (acc : List (Nat × List Int)) : Except String (List (Nat × List Int)) :=
  if rowGet row "Id" ≠ some subject_id then Except.ok acc
  else
    match rowGet row "Time" with
    | Option.none => Except.ok acc
    | Option.some s =>
      match pySplitWs s with
      | [] => Except.error "IndexError"
      | w :: _ =>
        match parseDateMDY w with
        | Option.none => Except.ok acc
        | Option.some d =>
          match (rowGet row "Value").bind pyIntOfString with
          | Option.none => Except.ok acc
          | Option.some v => Except.ok (alAppend acc d v)

/-- `FitbitKaggleAdapter._load_heart_rate_data` (fitbit_kaggle.py:245-284):
collect second-level readings per day, then aggregate each day's nonempty
sample list. -/
def fitbit_load_heart_rate_data (subject_id : String) (rows : List Row) :
    Except String (List (Nat × HrFields)) := do
  let daily ← rows.foldlM (fun acc row => fitbit_hr_row subject_id row acc) []
  Except.ok (daily.foldl (fun res p =>
    if p.2.isEmpty then res else alSet res p.1 (fitbit_hr_aggregate p.2)) [])

/-- The activity overlay of the merge loop (fitbit_kaggle.py:142-149). -/
def fitbit_apply_activity (r : PyDict) (act : ActivityFields) : PyDict :=
  let r := dictSet r "steps" (optIntV act.steps)
  let r := dictSet r "distance_km" (optRatV act.distance_km)
  let r := dictSet r "active_calories" (optIntV act.active_calories)
  let r := dictSet r "total_calories" (optIntV act.total_calories)
  let r := dictSet r "active_minutes" (optIntV act.active_minutes)
  dictSet r "sedentary_minutes" (optIntV act.sedentary_minutes)

/-- The sleep overlay of the merge loop (fitbit_kaggle.py:152-155). -/
def fitbit_apply_sleep (r : PyDict) (slp : SleepFields) : PyDict :=
  let r := dictSet r "sleep_duration" (optRatV slp.sleep_duration)
  dictSet r "sleep_score" (optIntV slp.sleep_score)

/-- The heart-rate overlay of the merge loop (fitbit_kaggle.py:157-162). -/
def fitbit_apply_hr (r : PyDict) (hr : HrFields) : PyDict :=
  let r := dictSet r "resting_hr" (optIntV hr.resting_hr)
  let r := dictSet r "hr_min" (optIntV hr.hr_min)
  dictSet r "hr_max" (optIntV hr.hr_max)

/-- One iteration of the merge loop of `FitbitKaggleAdapter.load_health_data`
(fitbit_kaggle.py:138-164): the day's record starts empty and is overlaid
with whichever tributaries have the date. -/
def fitbit_day_record (activity : List (Nat × ActivityFields))
    (sleep : List (Nat × SleepFields)) (hr : List (Nat × HrFields))
    (d : Nat) : PyDict :=
  let r := create_empty_record d
  let r := match alGet activity d with
           | Option.some act => fitbit_apply_activity r act
           | Option.none => r
  let r := match alGet sleep d with
           | Option.some s => fitbit_apply_sleep r s
           | Option.none => r
  match alGet hr d with
  | Option.some h => fitbit_apply_hr r h
  | Option.none => r

/-- The merge loop of `FitbitKaggleAdapter.load_health_data`
(fitbit_kaggle.py:133-166): one record per date in the sorted union of the
tributary date sets. -/
def fitbit_merge (activity : List (Nat × ActivityFields))
    (sleep : List (Nat × SleepFields)) (hr : List (Nat × HrFields)) :
    List PyDict :=
  (sortedDateUnion (alKeys activity) (alKeys sleep) (alKeys hr)).map
    (fitbit_day_record activity sleep hr)

/-- `FitbitKaggleAdapter.load_health_data` (fitbit_kaggle.py:123-166):
empty when the dataset is unavailable, otherwise the three tributaries are
loaded (any uncaught exception propagating) and merged. -/
def fitbit_load_health_data (available : Bool) (subject_id : String)
    (activityRows sleepRows hrRows : List Row) :
    Except String (List PyDict) :=
  if !available then Except.ok []
  else do
    let activity ← fitbit_load_activity_data subject_id activityRows
    let sleep ← fitbit_load_sleep_data subject_id sleepRows
    let hr ← fitbit_load_heart_rate_data subject_id hrRows
    Except.ok (fitbit_merge activity sleep hr)

end Fitbit

section Ohio

/-!
## OhioT1DM CGM adapter (`src/data/adapters/cgm/ohio_t1dm.py`)

The claims about this adapter concern `load_health_data`
(ohio_t1dm.py:144-191), which merges the three day-keyed maps produced by
`_load_glucose_data`, `_load_insulin_data` and `_load_meal_data`.  The XML
parsers behind those maps are not embedded; the maps themselves are the
inputs of the embedded merge, exactly as in the source function.
-/

/-- Python `min` over a nonempty rational list. -/
def listMinQ : List Rat → Option Rat
  | [] => Option.none
  | x :: xs => some (xs.foldl min x)

/-- Python `max` over a nonempty rational list. -/
def listMaxQ : List Rat → Option Rat
  | [] => Option.none
  | x :: xs => some (xs.foldl max x)

/-- The per-day insulin totals of `_load_insulin_data`
(ohio_t1dm.py:246-287); `load_health_data` only tests membership. -/
structure InsulinDay where
  bolus : Rat
  basal : Rat
  deriving DecidableEq, Repr

/-- The per-day meal totals of `_load_meal_data` (ohio_t1dm.py:289-317);
`load_health_data` only uses the dates. -/
structure MealDay where
  carbs : Rat
  meals : Nat
  deriving DecidableEq, Repr

/-- The glucose block of the merge loop (ohio_t1dm.py:167-181): mean,
min, max, population standard deviation (`N` divisor, the square root kept
symbolic) and percentage of samples in `[70, 180]`. -/
def ohio_apply_glucose (r : PyDict) (glucose_values : List Rat) : PyDict :=
  if glucose_values.isEmpty then r
  else
    let n : Rat := (glucose_values.length : Rat)
    let avg := glucose_values.sum / n
    let r := dictSet r "glucose_avg" (Value.vrat avg)
    let r := dictSet r "glucose_min" (optRatV (listMinQ glucose_values))
    let r := dictSet r "glucose_max" (optRatV (listMaxQ glucose_values))
    let variance := (glucose_values.map (fun x => (x - avg) ^ 2)).sum / n
    let r := dictSet r "glucose_std" (Value.vsqrt variance)
    let in_range := glucose_values.countP (fun x => decide (70 ≤ x ∧ x ≤ 180))
    dictSet r "time_in_range" (Value.vrat ((in_range : Rat) / n * 100))

/-- One iteration of the merge loop of `OhioT1DMAdapter.load_health_data`
(ohio_t1dm.py:163-189): an insulin day re-assigns `readiness_score` to
`None` (a placeholder in the source); meal days contribute no fields. -/
def ohio_day_record (glucose : List (Nat × List Rat))
    (insulin : List (Nat × InsulinDay)) (d : Nat) : PyDict :=
  let r := create_empty_record d
  let r := match alGet glucose d with
           | Option.some xs => ohio_apply_glucose r xs
           | Option.none => r
  match alGet insulin d with
  | Option.some _ => dictSet r "readiness_score" Value.vnone
  | Option.none => r

/-- The merge loop of `OhioT1DMAdapter.load_health_data`
(ohio_t1dm.py:158-191): one record per date in the sorted union of the
glucose, insulin and meal date sets. -/
def ohio_merge (glucose : List (Nat × List Rat))
    (insulin : List (Nat × InsulinDay)) (meals : List (Nat × MealDay)) :
    List PyDict :=
  (sortedDateUnion (alKeys glucose) (alKeys insulin) (alKeys meals)).map
    (ohio_day_record glucose insulin)

/-- `OhioT1DMAdapter.load_health_data` (ohio_t1dm.py:144-191). -/
def ohio_load_health_data (available : Bool)
    (glucose : List (Nat × List Rat)) (insulin : List (Nat × InsulinDay))
    (meals : List (Nat × MealDay)) : List PyDict :=
  if !available then [] else ohio_merge glucose insulin meals

end Ohio

section Mesa

/-!
## NSRR MESA sleep adapter (`src/data/adapters/sleep/nsrr_mesa.py`)

MESA dates are all of the form `date(2012, 1, 1) + timedelta(days = n)`
and are encoded as the day offset `n`: the PSG reference date
`date(2012, 1, 1)` is `0`, actigraphy day `k` is `k`.
-/

/-- `row.get('mesaid') or row.get('nsrrid') or ''`
(nsrr_mesa.py:153, 214). -/
def mesa_row_subject (row : Row) : String :=
  pyOrStrD (pyOrStr (rowGet row "mesaid") (rowGet row "nsrrid")) ""

/-- The record built for the matching PSG row
(nsrr_mesa.py:157-194): reference date `date(2012, 1, 1)`, then each field
set only when its source cell parses to a truthy float. -/
def mesa_psg_fields (row : Row) : PyDict :=
  let r := create_empty_record 0
  let tst := safe_float (rowGet row "slpprdp")
  let r := if truthyQ tst then
      dictSet r "sleep_duration" (Value.vrat (tst.getD 0 / 60)) else r
  let eff := safe_float (rowGet row "slpeffp")
  let r := if truthyQ eff then
      dictSet r "sleep_score" (Value.vint (ratTruncate (min 100 (eff.getD 0)))) else r
  let n3 := safe_float (rowGet row "timest3p")
  let r := if truthyQ n3 then
      dictSet r "deep_sleep" (Value.vrat (n3.getD 0 / 60)) else r
  let rem := safe_float (rowGet row "timeremp")
  let r := if truthyQ rem then
      dictSet r "rem_sleep" (Value.vrat (rem.getD 0 / 60)) else r
  let n1 := (safe_float (rowGet row "timest1p")).getD 0
  let n2 := (safe_float (rowGet row "timest2p")).getD 0
  let r := if n1 ≠ 0 ∨ n2 ≠ 0 then
      dictSet r "light_sleep" (Value.vrat ((n1 + n2) / 60)) else r
  let waso := safe_float (rowGet row "waso")
  if truthyQ waso then dictSet r "awake_time" (Value.vrat (waso.getD 0 / 60)) else r

/-- `NSRRMesaAdapter._load_psg_data` (nsrr_mesa.py:143-199): the record of
the first row whose subject matches, `None` when the file is absent or no
row matches. -/
def mesa_load_psg_data (subject_id : String) (sleepFile : Option (List Row)) :
    Option PyDict :=
  match sleepFile with
  | Option.none => Option.none
  | Option.some rows =>
    (rows.find? (fun row => mesa_row_subject row = subject_id)).map
      mesa_psg_fields

/-- The record built for the `day_num`-th matching actigraphy row
(nsrr_mesa.py:217-240): sequential date `date(2012, 1, 1) + day_num`. -/
def mesa_acti_fields (day_num : Nat) (row : Row) : PyDict :=
  let r := create_empty_record day_num
  let sleep_min := safe_float (pyOrStr (rowGet row "sleepmain") (rowGet row "sleeptime"))
  let r := if truthyQ sleep_min then
      dictSet r "sleep_duration" (Value.vrat (sleep_min.getD 0 / 60)) else r
  let eff := safe_float (pyOrStr (rowGet row "efficiency") (rowGet row "slpeff"))
  let r := if truthyQ eff then
      dictSet r "sleep_score" (Value.vint (ratTruncate (min 100 (eff.getD 0)))) else r
  let activity := safe_int (pyOrStr (rowGet row "activity") (rowGet row "actcount"))
  if truthyZ activity then dictSet r "steps" (Value.vint (activity.getD 0)) else r

/-- `NSRRMesaAdapter._load_actigraphy_data` (nsrr_mesa.py:201-245):
one record per matching row, `day_num` counting the matching rows. -/
def mesa_load_actigraphy_data (subject_id : String)
    (actiFile : Option (List Row)) : List PyDict :=
  match actiFile with
  | Option.none => []
  | Option.some rows =>
    ((rows.filter (fun row => mesa_row_subject row = subject_id)).enum).map
      (fun p => mesa_acti_fields p.1 p.2)

/-- The `date` key of a normalized record, as the encoded natural
(used as the sort key `lambda x: x['date']`). -/
def recDateNat (r : PyDict) : Nat :=
  match dictGet r "date" with
  | Option.some (Value.vdate d) => d
  | _ => 0

/-- `NSRRMesaAdapter.load_health_data` (nsrr_mesa.py:121-141): the PSG
record (when any) concatenated with the actigraphy run, then stably sorted
by date. -/
def mesa_load_health_data (available : Bool) (subject_id : String)
    (sleepFile actiFile : Option (List Row)) : List PyDict :=
  if !available then []
  else
    let records :=
      (match mesa_load_psg_data subject_id sleepFile with
       | Option.some r => [r]
       | Option.none => []) ++ mesa_load_actigraphy_data subject_id actiFile
    List.insertionSort (fun a b => recDateNat a ≤ recDateNat b) records

end Mesa

section PMData

/-!
## PMData adapter, heart-rate aggregation
(`src/data/adapters/wearables/pmdata.py:223-232`)

The PMData adapter's `_load_hr_data` reduces a day's readings with the
same percentile rule as the Fitbit adapter, additionally pinning `hrv` to
`None`.
-/

/-- The per-day contribution of `PMDataAdapter._load_hr_data`
(pmdata.py:227-232). -/
structure PmdataHrFields where
  resting_hr : Option Int
  hr_min : Option Int
  hr_max : Option Int
  hrv : Option Int
  deriving DecidableEq, Repr

/-- The daily aggregation step of `PMDataAdapter._load_hr_data`
(pmdata.py:223-232): identical percentile rule to the Fitbit adapter
(`max(0, int(n * 0.1))` into the ascending sort; `int(n * 0.1) = n / 10`
for every feasible `n`). -/
def pmdata_hr_aggregate (hr_values : List Int) : PmdataHrFields :=
  let sorted_hr := List.insertionSort (· ≤ ·) hr_values
  let resting_idx := max 0 (sorted_hr.length / 10)
  { resting_hr := some (sorted_hr.getD resting_idx 0),
    hr_min := listMin hr_values,
    hr_max := listMax hr_values,
    hrv := Option.none }

/-- The per-day contribution of `PMDataAdapter._load_sleep_data`
(pmdata.py:177-184). -/
structure PmSleepFields where
  sleep_duration : Option Rat
  sleep_score : Option Int
  deep_sleep : Option Rat
  rem_sleep : Option Rat
  light_sleep : Option Rat
  awake_time : Option Rat
  deriving DecidableEq, Repr

/-- The per-day contribution of `PMDataAdapter._load_activity_data`
(pmdata.py:250-254, 271-272). -/
structure PmActivityFields where
  steps : Option Int
  active_calories : Option Int
  active_minutes : Option Int
  deriving DecidableEq, Repr

/-- The sleep overlay of the PMData merge loop (pmdata.py:126-133). -/
def pmdata_apply_sleep (r : PyDict) (slp : PmSleepFields) : PyDict :=
  let r := dictSet r "sleep_duration" (optRatV slp.sleep_duration)
  let r := dictSet r "sleep_score" (optIntV slp.sleep_score)
  let r := dictSet r "deep_sleep" (optRatV slp.deep_sleep)
  let r := dictSet r "rem_sleep" (optRatV slp.rem_sleep)
  let r := dictSet r "light_sleep" (optRatV slp.light_sleep)
  dictSet r "awake_time" (optRatV slp.awake_time)

/-- The heart-rate overlay of the PMData merge loop (pmdata.py:136-141). -/
def pmdata_apply_hr (r : PyDict) (hr : PmdataHrFields) : PyDict :=
  let r := dictSet r "resting_hr" (optIntV hr.resting_hr)
  let r := dictSet r "hrv" (optIntV hr.hrv)
  let r := dictSet r "hr_min" (optIntV hr.hr_min)
  dictSet r "hr_max" (optIntV hr.hr_max)

/-- The activity overlay of the PMData merge loop (pmdata.py:144-148). -/
def pmdata_apply_activity (r : PyDict) (act : PmActivityFields) : PyDict :=
  let r := dictSet r "steps" (optIntV act.steps)
  let r := dictSet r "active_calories" (optIntV act.active_calories)
  dictSet r "active_minutes" (optIntV act.active_minutes)

/-- One iteration of the merge loop of `PMDataAdapter.load_health_data`
(pmdata.py:122-150): overlay order sleep, heart rate, activity. -/
def pmdata_day_record (sleep : List (Nat × PmSleepFields))
    (hr : List (Nat × PmdataHrFields)) (activity : List (Nat × PmActivityFields))
    (d : Nat) : PyDict :=
  let r := create_empty_record d
  let r := match alGet sleep d with
           | Option.some s => pmdata_apply_sleep r s
           | Option.none => r
  let r := match alGet hr d with
           | Option.some h => pmdata_apply_hr r h
           | Option.none => r
  match alGet activity d with
  | Option.some act => pmdata_apply_activity r act
  | Option.none => r

/-- The merge loop of `PMDataAdapter.load_health_data` (pmdata.py:117-152):
one record per date in the sorted union of the tributary date sets.  The
JSON tributary loaders are not embedded; their date-keyed results are the
inputs, exactly as in the source function. -/
def pmdata_merge (sleep : List (Nat × PmSleepFields))
    (hr : List (Nat × PmdataHrFields))
    (activity : List (Nat × PmActivityFields)) : List PyDict :=
  (sortedDateUnion (alKeys sleep) (alKeys hr) (alKeys activity)).map
    (pmdata_day_record sleep hr activity)

/-- `PMDataAdapter.load_health_data` (pmdata.py:103-152): empty when the
dataset is unavailable or the subject directory is missing. -/
def pmdata_load_health_data (available subj_path_exists : Bool)
    (sleep : List (Nat × PmSleepFields)) (hr : List (Nat × PmdataHrFields))
    (activity : List (Nat × PmActivityFields)) : List PyDict :=
  if !available then []
  else if !subj_path_exists then []
  else pmdata_merge sleep hr activity

end PMData

section TrivialAdapters

/-- `NHANESAdapter.load_health_data` (nhanes.py:134-142): the clinical
dataset is cross-sectional, so the daily series is empty by contract. -/
def nhanes_load_health_data (_subject_id : String) : List PyDict := []

/-- `ThousandGenomesAdapter.load_health_data` (thousand_genomes.py:171-173):
the genomics dataset has no health/wearable data. -/
def thousand_genomes_load_health_data (_subject_id : String) : List PyDict := []

end TrivialAdapters

section DictLemmas

/-!
## Generic dictionary and tributary-map lemmas
-/

/-- The in-place branch of `dictSet` does not disturb the search for a
different key. -/
theorem find?_key_map_set_ne (r : PyDict) (k k' : String) (v : Value)
    (h : k ≠ k') :
    List.find? (fun p => p.1 = k')
        (r.map (fun p => if p.1 = k then (k, v) else p))
      = List.find? (fun p => p.1 = k') r := by
  induction r with
  | nil => rfl
  | cons p t ih =>
    simp only [List.map_cons, List.find?_cons]
    by_cases hp : p.1 = k
    · rw [if_pos hp]
      have h1 : (decide (((k, v) : String × Value).1 = k')) = false :=
        decide_eq_false h
      have h2 : (decide (p.1 = k')) = false := by
        apply decide_eq_false
        rw [hp]; exact h
      rw [h1, h2]
      exact ih
    · rw [if_neg hp]
      cases hdec : decide (p.1 = k') with
      | true => rfl
      | false => exact ih

/-- Looking up a different key after an assignment is unchanged. -/
theorem dictGet_dictSet_ne (r : PyDict) (k k' : String) (v : Value)
    (h : k ≠ k') : dictGet (dictSet r k v) k' = dictGet r k' := by
  unfold dictSet
  split
  · unfold dictGet
    rw [find?_key_map_set_ne r k k' v h]
  · unfold dictGet
    rw [List.find?_append]
    have hnone : List.find? (fun p => p.1 = k') [(k, v)] = Option.none := by
      simp [h]
    rw [hnone]
    cases List.find? (fun p => decide (p.1 = k')) r <;> rfl

/-- Assignment preserves the key sequence when the key is already present. -/
theorem dictKeys_dictSet_of_mem (r : PyDict) (k : String) (v : Value)
    (h : k ∈ dictKeys r) : dictKeys (dictSet r k v) = dictKeys r := by
  unfold dictSet
  have hany : r.any (fun p => decide (p.1 = k)) = true := by
    rcases List.mem_map.mp h with ⟨p, hp, hpk⟩
    exact List.any_eq_true.mpr ⟨p, hp, by simp [hpk]⟩
  rw [if_pos hany]
  unfold dictKeys
  rw [List.map_map]
  apply List.map_congr_left
  intro p _
  by_cases hp : p.1 = k
  · simp [hp]
  · simp [hp]

/-- Members of a tributary map after `alSet`: either the new binding's
value or a pre-existing pair. -/
theorem mem_alSet {α : Type} (l : List (Nat × α)) (k : Nat) (v : α)
    (q : Nat × α) (h : q ∈ alSet l k v) : q.2 = v ∨ q ∈ l := by
  unfold alSet at h
  split at h
  · rcases List.mem_map.mp h with ⟨p, hp, hpq⟩
    by_cases hk : p.1 = k
    · left
      rw [if_pos hk] at hpq
      rw [← hpq]
    · right
      rw [if_neg hk] at hpq
      rw [← hpq]
      exact hp
  · rcases List.mem_append.mp h with h1 | h1
    · right; exact h1
    · left
      rcases List.mem_singleton.mp h1 with rfl
      rfl

/-- The key list of `alSet` is the original key list, or it with the new
key appended. -/
theorem alKeys_alSet {α : Type} (l : List (Nat × α)) (k : Nat) (v : α) :
    alKeys (alSet l k v) = alKeys l ∨ alKeys (alSet l k v) = alKeys l ++ [k] := by
  unfold alSet
  split
  · left
    unfold alKeys
    rw [List.map_map]
    apply List.map_congr_left
    intro p _
    by_cases hp : p.1 = k
    · simp [hp]
    · simp [hp]
  · right
    unfold alKeys
    rw [List.map_append]
    rfl

end DictLemmas

section ClaimC1

/-- A session state holding loaded data in every slot, used to exercise the
dataset/subject switch setters. -/
def c1_state : AppState :=
  { health_data := some [create_empty_record 7],
    patient_profile := some [("age", Value.vint 31)],
    lab_data := some [[("name", Value.vnone)]],
    genetic_data := some [("ancestry", Value.vrat 90)],
    workouts := some [[("type", Value.vnone)]],
    data_loaded := true,
    active_dataset := "pmdata",
    active_subject := some "p01" }

/-- C1: the claim says `set_active_dataset` and `set_active_subject` clear
*all* data slots, including the genetic-data mapping and the workouts
sequence.  The code's `clear_all_data` resets only `health_data`,
`lab_data`, `patient_profile` and the `data_loaded` flag: after either
setter the `genetic_data` and `workouts` slots still hold the previous
subject's data, contradicting the claim (and the stale-data leak it is
meant to rule out). -/
theorem c1_switch_leaves_genetic_and_workouts :
    (set_active_dataset "nhanes" c1_state).genetic_data
        = some [("ancestry", Value.vrat 90)] ∧
    (set_active_dataset "nhanes" c1_state).workouts
        = some [[("type", Value.vnone)]] ∧
    (set_active_subject (some "p02") c1_state).genetic_data
        = some [("ancestry", Value.vrat 90)] ∧
    (set_active_subject (some "p02") c1_state).workouts
        = some [[("type", Value.vnone)]] ∧
    (set_active_dataset "nhanes" c1_state).health_data = Option.none ∧
    (set_active_dataset "nhanes" c1_state).lab_data = Option.none ∧
    (set_active_dataset "nhanes" c1_state).patient_profile = Option.none ∧
    (set_active_dataset "nhanes" c1_state).data_loaded = false := by
  refine ⟨rfl, rfl, rfl, rfl, rfl, rfl, rfl, rfl⟩

end ClaimC1

section ClaimC2

/-- A `dailyActivity_merged.csv` row whose subject and date are valid but
whose `VeryActiveMinutes` cell is empty. -/
def c2_bad_row : Row :=
  [("Id", "1503960366"), ("ActivityDate", "4/12/2016"),
   ("VeryActiveMinutes", ""), ("FairlyActiveMinutes", "10"),
   ("LightlyActiveMinutes", "200"), ("TotalSteps", "9999"),
   ("Calories", "1820"), ("SedentaryMinutes", "700")]

/-- C2: the claim says `load_health_data` never raises — malformed rows are
skipped.  In `FitbitKaggleAdapter._load_activity_data` the expression
`_safe_int(row.get('VeryActiveMinutes', 0)) + _safe_int(...) + _safe_int(...)`
adds `Optional[int]`s: an empty `VeryActiveMinutes` cell makes `_safe_int`
return `None`, and `None + int` raises a `TypeError` that no handler
catches, aborting the whole load instead of skipping the row. -/
theorem c2_fitbit_activity_typeerror :
    fitbit_load_health_data true "1503960366" [c2_bad_row] [] []
        = Except.error "TypeError" ∧
    fitbit_load_activity_data "1503960366" [c2_bad_row]
        = Except.error "TypeError" := by
  exact ⟨rfl, rfl⟩

end ClaimC2

section ClaimC4

/-- The uniform-draw stream of a program run whose salted `hash(pop)` seeds
the PRNG to produce all-zero variations (one possible run). -/
def c4_draws_run1 : Nat → Rat := fun _ => 0

/-- The draw stream of a run with a different `PYTHONHASHSEED`, hence a
different seed for the same population code (another possible run). -/
def c4_draws_run2 : Nat → Rat := fun _ => 1/100

/-- An in-range draw stream under which the rounded percentages of the
`AMR` composition sum to 100.1 rather than 100. -/
def c4_draws_amr : Nat → Rat := fun i =>
  if i = 0 then 7/10000 else if i = 1 then -13/10000
  else if i = 2 then 7/10000 else -1/10000

/-- The generator's output for the all-zero draw stream. -/
theorem c4_eval_run1 : generate_ancestry_composition c4_draws_run1 "CEU" "EUR"
    = [("European", 90), ("Middle Eastern", 5), ("Other", 5)] := by
  norm_num [generate_ancestry_composition, base_compositions, c4_draws_run1,
    pyRound1, roundHalfEven, List.enum, List.enumFrom, max_def]

/-- The generator's output for the constant `+0.01` draw stream. -/
theorem c4_eval_run2 : generate_ancestry_composition c4_draws_run2 "CEU" "EUR"
    = [("European", 883/10), ("Middle Eastern", 29/5), ("Other", 29/5)] := by
  have hfa : Int.fract ((91000:ℚ)/103) = 51/103 := by
    rw [← Int.self_sub_floor]; norm_num
  have hfb : Int.fract ((6000:ℚ)/103) = 26/103 := by
    rw [← Int.self_sub_floor]; norm_num
  norm_num [generate_ancestry_composition, base_compositions, c4_draws_run2,
    pyRound1, roundHalfEven, List.enum, List.enumFrom, max_def, hfa, hfb]

/-- The generator's output for the `AMR` draw stream that breaks the
sum-to-100 property. -/
theorem c4_eval_amr : generate_ancestry_composition c4_draws_amr "MXL" "AMR"
    = [("Indigenous American", 401/10), ("European", 349/10),
       ("African", 201/10), ("Other", 5)] := by
  have hf1 : Int.fract ((4007:ℚ)/10) = 7/10 := by
    rw [← Int.self_sub_floor]; norm_num
  have hf2 : Int.fract ((3487:ℚ)/10) = 7/10 := by
    rw [← Int.self_sub_floor]; norm_num
  have hf3 : Int.fract ((2007:ℚ)/10) = 7/10 := by
    rw [← Int.self_sub_floor]; norm_num
  have hf4 : Int.fract ((499:ℚ)/10) = 9/10 := by
    rw [← Int.self_sub_floor]; norm_num
  norm_num [generate_ancestry_composition, base_compositions, c4_draws_amr,
    pyRound1, roundHalfEven, List.enum, List.enumFrom, max_def,
    hf1, hf2, hf3, hf4]

/-- C4: the claim asserts run-to-run determinism and an exact sum of 100.
The generator seeds Python's PRNG with `hash(pop)` — the *salted* built-in
string hash, which changes between program runs — so the uniform draws,
and with them the output percentages, depend on the run: two draw streams
that are both within `random.uniform(-0.05, 0.05)`'s range yield different
mappings for the same population code `CEU`/`EUR`.  Independently, the
renormalized percentages are each rounded to one decimal, so they need not
sum to exactly 100: an in-range draw stream for `MXL`/`AMR` yields
40.1 + 34.9 + 20.1 + 5.0 = 100.1. -/
theorem c4_ancestry_run_dependent :
    ancestry_draws_in_range c4_draws_run1 3 ∧
    ancestry_draws_in_range c4_draws_run2 3 ∧
    generate_ancestry_composition c4_draws_run1 "CEU" "EUR"
        ≠ generate_ancestry_composition c4_draws_run2 "CEU" "EUR" ∧
    ancestry_draws_in_range c4_draws_amr 4 ∧
    ((generate_ancestry_composition c4_draws_amr "MXL" "AMR").map
        (fun p => p.2)).sum = 1001/10 := by
  refine ⟨?_, ?_, ?_, ?_, ?_⟩
  · intro i _
    exact ⟨by norm_num [c4_draws_run1], by norm_num [c4_draws_run1]⟩
  · intro i _
    exact ⟨by norm_num [c4_draws_run2], by norm_num [c4_draws_run2]⟩
  · rw [c4_eval_run1, c4_eval_run2]
    simp only [ne_eq, List.cons.injEq, Prod.mk.injEq]
    intro h
    have h90 : (90 : Rat) = 883/10 := h.1.2
    norm_num at h90
  · intro i hi
    interval_cases i <;> constructor <;> simp [c4_draws_amr] <;> norm_num
  · rw [c4_eval_amr]
    norm_num [List.map_cons, List.map_nil, List.sum_cons, List.sum_nil]

end ClaimC4

section ClaimC3

/-- The activity overlay leaves the `date` field alone. -/
theorem dictGet_date_apply_activity (r : PyDict) (act : ActivityFields) :
    dictGet (fitbit_apply_activity r act) "date" = dictGet r "date" := by
  unfold fitbit_apply_activity
  rw [dictGet_dictSet_ne _ _ _ _ (by decide), dictGet_dictSet_ne _ _ _ _ (by decide),
      dictGet_dictSet_ne _ _ _ _ (by decide), dictGet_dictSet_ne _ _ _ _ (by decide),
      dictGet_dictSet_ne _ _ _ _ (by decide), dictGet_dictSet_ne _ _ _ _ (by decide)]

/-- The sleep overlay leaves the `date` field alone. -/
theorem dictGet_date_apply_sleep (r : PyDict) (slp : SleepFields) :
    dictGet (fitbit_apply_sleep r slp) "date" = dictGet r "date" := by
  unfold fitbit_apply_sleep
  rw [dictGet_dictSet_ne _ _ _ _ (by decide), dictGet_dictSet_ne _ _ _ _ (by decide)]

/-- The heart-rate overlay leaves the `date` field alone. -/
theorem dictGet_date_apply_hr (r : PyDict) (hr : HrFields) :
    dictGet (fitbit_apply_hr r hr) "date" = dictGet r "date" := by
  unfold fitbit_apply_hr
  rw [dictGet_dictSet_ne _ _ _ _ (by decide), dictGet_dictSet_ne _ _ _ _ (by decide),
      dictGet_dictSet_ne _ _ _ _ (by decide)]

/-- The glucose overlay leaves the `date` field alone. -/
theorem dictGet_date_apply_glucose (r : PyDict) (xs : List Rat) :
    dictGet (ohio_apply_glucose r xs) "date" = dictGet r "date" := by
  unfold ohio_apply_glucose
  split
  · rfl
  · rw [dictGet_dictSet_ne _ _ _ _ (by decide), dictGet_dictSet_ne _ _ _ _ (by decide),
        dictGet_dictSet_ne _ _ _ _ (by decide), dictGet_dictSet_ne _ _ _ _ (by decide),
        dictGet_dictSet_ne _ _ _ _ (by decide)]

/-- The `date` field of the empty record is its construction date. -/
theorem dictGet_date_create_empty (d : Nat) :
    dictGet (create_empty_record d) "date" = some (Value.vdate d) := rfl

/-- The PMData sleep overlay leaves the `date` field alone. -/
theorem dictGet_date_pm_apply_sleep (r : PyDict) (slp : PmSleepFields) :
    dictGet (pmdata_apply_sleep r slp) "date" = dictGet r "date" := by
  unfold pmdata_apply_sleep
  rw [dictGet_dictSet_ne _ _ _ _ (by decide), dictGet_dictSet_ne _ _ _ _ (by decide),
      dictGet_dictSet_ne _ _ _ _ (by decide), dictGet_dictSet_ne _ _ _ _ (by decide),
      dictGet_dictSet_ne _ _ _ _ (by decide), dictGet_dictSet_ne _ _ _ _ (by decide)]

/-- The PMData heart-rate overlay leaves the `date` field alone. -/
theorem dictGet_date_pm_apply_hr (r : PyDict) (hr : PmdataHrFields) :
    dictGet (pmdata_apply_hr r hr) "date" = dictGet r "date" := by
  unfold pmdata_apply_hr
  rw [dictGet_dictSet_ne _ _ _ _ (by decide), dictGet_dictSet_ne _ _ _ _ (by decide),
      dictGet_dictSet_ne _ _ _ _ (by decide), dictGet_dictSet_ne _ _ _ _ (by decide)]

/-- The PMData activity overlay leaves the `date` field alone. -/
theorem dictGet_date_pm_apply_activity (r : PyDict) (act : PmActivityFields) :
    dictGet (pmdata_apply_activity r act) "date" = dictGet r "date" := by
  unfold pmdata_apply_activity
  rw [dictGet_dictSet_ne _ _ _ _ (by decide), dictGet_dictSet_ne _ _ _ _ (by decide),
      dictGet_dictSet_ne _ _ _ _ (by decide)]

/-- Each merged PMData day record carries its day as the `date` field. -/
theorem recDateNat_pmdata_day_record (sleep : List (Nat × PmSleepFields))
    (hr : List (Nat × PmdataHrFields)) (activity : List (Nat × PmActivityFields))
    (d : Nat) : recDateNat (pmdata_day_record sleep hr activity d) = d := by
  unfold pmdata_day_record recDateNat
  cases alGet sleep d <;> cases alGet hr d <;> cases alGet activity d <;>
    simp only [dictGet_date_pm_apply_sleep, dictGet_date_pm_apply_hr,
      dictGet_date_pm_apply_activity, dictGet_date_create_empty]

/-- Each merged Fitbit day record carries its day as the `date` field. -/
theorem recDateNat_fitbit_day_record (activity : List (Nat × ActivityFields))
    (sleep : List (Nat × SleepFields)) (hr : List (Nat × HrFields)) (d : Nat) :
    recDateNat (fitbit_day_record activity sleep hr d) = d := by
  unfold fitbit_day_record recDateNat
  cases alGet activity d <;> cases alGet sleep d <;> cases alGet hr d <;>
    simp only [dictGet_date_apply_activity, dictGet_date_apply_sleep,
      dictGet_date_apply_hr, dictGet_date_create_empty]

/-- Each merged Ohio day record carries its day as the `date` field. -/
theorem recDateNat_ohio_day_record (glucose : List (Nat × List Rat))
    (insulin : List (Nat × InsulinDay)) (d : Nat) :
    recDateNat (ohio_day_record glucose insulin d) = d := by
  unfold ohio_day_record recDateNat
  cases alGet glucose d <;> cases alGet insulin d <;>
    simp only [dictGet_dictSet_ne _ "readiness_score" "date" _ (by decide),
      dictGet_date_apply_glucose, dictGet_date_create_empty]

/-- `sortedDateUnion` is strictly sorted: ascending and duplicate-free. -/
theorem sortedDateUnion_sorted_lt (a b c : List Nat) :
    List.Sorted (· < ·) (sortedDateUnion a b c) := by
  unfold sortedDateUnion
  apply List.Sorted.lt_of_le
  · exact List.sorted_insertionSort (· ≤ ·) _
  · exact (List.perm_insertionSort (· ≤ ·) _).nodup_iff.mpr
      (List.nodup_dedup _)

/-- The date sequence of the Fitbit merge is the sorted duplicate-free
union of the tributary date sets. -/
theorem fitbit_merge_dates (activity : List (Nat × ActivityFields))
    (sleep : List (Nat × SleepFields)) (hr : List (Nat × HrFields)) :
    (fitbit_merge activity sleep hr).map recDateNat
      = sortedDateUnion (alKeys activity) (alKeys sleep) (alKeys hr) := by
  unfold fitbit_merge
  rw [List.map_map]
  have : (recDateNat ∘ fitbit_day_record activity sleep hr) = id := by
    funext d
    exact recDateNat_fitbit_day_record activity sleep hr d
  rw [this, List.map_id]

/-- The date sequence of the Ohio merge is the sorted duplicate-free union
of the tributary date sets. -/
theorem ohio_merge_dates (glucose : List (Nat × List Rat))
    (insulin : List (Nat × InsulinDay)) (meals : List (Nat × MealDay)) :
    (ohio_merge glucose insulin meals).map recDateNat
      = sortedDateUnion (alKeys glucose) (alKeys insulin) (alKeys meals) := by
  unfold ohio_merge
  rw [List.map_map]
  have : (recDateNat ∘ ohio_day_record glucose insulin) = id := by
    funext d
    exact recDateNat_ohio_day_record glucose insulin d
  rw [this, List.map_id]

/-- The date sequence of the PMData merge is the sorted duplicate-free
union of the tributary date sets. -/
theorem pmdata_merge_dates (sleep : List (Nat × PmSleepFields))
    (hr : List (Nat × PmdataHrFields)) (activity : List (Nat × PmActivityFields)) :
    (pmdata_merge sleep hr activity).map recDateNat
      = sortedDateUnion (alKeys sleep) (alKeys hr) (alKeys activity) := by
  unfold pmdata_merge
  rw [List.map_map]
  have : (recDateNat ∘ pmdata_day_record sleep hr activity) = id := by
    funext d
    exact recDateNat_pmdata_day_record sleep hr activity d
  rw [this, List.map_id]

/-- A MESA sleep file holding one PSG row for subject `1`. -/
def c3_psg_rows : List Row := [[("mesaid", "1"), ("slpprdp", "420")]]

/-- A MESA actigraphy file holding one row for subject `1`. -/
def c3_acti_rows : List Row := [[("mesaid", "1"), ("sleepmain", "400")]]

/-- C3 counterexample: the claim says no adapter returns two records with
the same date.  The MESA sleep adapter gives the polysomnography night the
fixed reference date `date(2012, 1, 1)` and starts the actigraphy run at
the same epoch, so a subject with both a PSG row and an actigraphy row
gets two records dated `2012-01-01` (day offset `0`): the date list of the
returned sequence is `[0, 0]`, not duplicate-free. -/
theorem c3_mesa_duplicate_dates :
    ((mesa_load_health_data true "1" (some c3_psg_rows)
        (some c3_acti_rows)).map recDateNat) = [0, 0] ∧
    ¬ ((mesa_load_health_data true "1" (some c3_psg_rows)
        (some c3_acti_rows)).map recDateNat).Nodup := by
  constructor
  · rfl
  · decide

/-- C3 amended: every embedded `load_health_data` result is sorted
ascending by date; for the date-keyed merge adapters (Fitbit, PMData and
the CGM merge) the dates are also pairwise distinct (strictly sorted), but
the MESA sleep adapter guarantees only ascending order — its PSG reference
night can share `2012-01-01` with the first actigraphy day, as the
counterexample shows.  (The two remaining adapters return empty sequences,
for which both properties are vacuous.) -/
theorem c3_sorted_dates_amended :
    (∀ (avail : Bool) (sid : String) (sleepFile actiFile : Option (List Row)),
       List.Sorted (· ≤ ·)
         ((mesa_load_health_data avail sid sleepFile actiFile).map recDateNat)) ∧
    (∀ (activity : List (Nat × ActivityFields)) (sleep : List (Nat × SleepFields))
       (hr : List (Nat × HrFields)),
       List.Sorted (· < ·) ((fitbit_merge activity sleep hr).map recDateNat)) ∧
    (∀ (glucose : List (Nat × List Rat)) (insulin : List (Nat × InsulinDay))
       (meals : List (Nat × MealDay)),
       List.Sorted (· < ·) ((ohio_merge glucose insulin meals).map recDateNat)) ∧
    (∀ (sleep : List (Nat × PmSleepFields)) (hr : List (Nat × PmdataHrFields))
       (activity : List (Nat × PmActivityFields)),
       List.Sorted (· < ·) ((pmdata_merge sleep hr activity).map recDateNat)) := by
  refine ⟨?_, ?_, ?_, ?_⟩
  · intro avail sid sleepFile actiFile
    unfold mesa_load_health_data
    split
    · simp
    · haveI : IsTotal PyDict (fun a b => recDateNat a ≤ recDateNat b) :=
        ⟨fun a b => Nat.le_total _ _⟩
      haveI : IsTrans PyDict (fun a b => recDateNat a ≤ recDateNat b) :=
        ⟨fun _ _ _ => Nat.le_trans⟩
      have h := List.sorted_insertionSort
        (fun a b => recDateNat a ≤ recDateNat b) ((match mesa_load_psg_data sid sleepFile with
          | Option.some r => [r]
          | Option.none => []) ++ mesa_load_actigraphy_data sid actiFile)
      rw [List.Sorted, List.pairwise_map]
      exact h
  · intro activity sleep hr
    rw [fitbit_merge_dates]
    exact sortedDateUnion_sorted_lt _ _ _
  · intro glucose insulin meals
    rw [ohio_merge_dates]
    exact sortedDateUnion_sorted_lt _ _ _
  · intro sleep hr activity
    rw [pmdata_merge_dates]
    exact sortedDateUnion_sorted_lt _ _ _

end ClaimC3

section ClaimC5

/-- The empty record's keys are exactly the canonical fields. -/
theorem keys_create_empty (d : Nat) :
    dictKeys (create_empty_record d) = canonical_fields := rfl

/-- Assigning a canonical key preserves the canonical key sequence. -/
theorem dictKeys_dictSet_canonical (r : PyDict) (k : String) (v : Value)
    (h : dictKeys r = canonical_fields) (hk : k ∈ canonical_fields) :
    dictKeys (dictSet r k v) = canonical_fields := by
  rw [dictKeys_dictSet_of_mem r k v (by rw [h]; exact hk)]
  exact h

/-- A conditional assignment of a canonical key preserves the canonical
key sequence. -/
theorem keys_ite_dictSet (c : Prop) [Decidable c] (r : PyDict) (k : String)
    (v : Value) (h : dictKeys r = canonical_fields)
    (hk : k ∈ canonical_fields) :
    dictKeys (if c then dictSet r k v else r) = canonical_fields := by
  split
  · exact dictKeys_dictSet_canonical r k v h hk
  · exact h

/-- The Fitbit activity overlay preserves the canonical key sequence. -/
theorem keys_apply_activity (r : PyDict) (act : ActivityFields)
    (h : dictKeys r = canonical_fields) :
    dictKeys (fitbit_apply_activity r act) = canonical_fields := by
  unfold fitbit_apply_activity
  apply dictKeys_dictSet_canonical _ _ _ ?_ (by decide)
  apply dictKeys_dictSet_canonical _ _ _ ?_ (by decide)
  apply dictKeys_dictSet_canonical _ _ _ ?_ (by decide)
  apply dictKeys_dictSet_canonical _ _ _ ?_ (by decide)
  apply dictKeys_dictSet_canonical _ _ _ ?_ (by decide)
  exact dictKeys_dictSet_canonical _ _ _ h (by decide)

/-- The Fitbit sleep overlay preserves the canonical key sequence. -/
theorem keys_apply_sleep (r : PyDict) (slp : SleepFields)
    (h : dictKeys r = canonical_fields) :
    dictKeys (fitbit_apply_sleep r slp) = canonical_fields := by
  unfold fitbit_apply_sleep
  apply dictKeys_dictSet_canonical _ _ _ ?_ (by decide)
  exact dictKeys_dictSet_canonical _ _ _ h (by decide)

/-- The Fitbit heart-rate overlay preserves the canonical key sequence. -/
theorem keys_apply_hr (r : PyDict) (hr : HrFields)
    (h : dictKeys r = canonical_fields) :
    dictKeys (fitbit_apply_hr r hr) = canonical_fields := by
  unfold fitbit_apply_hr
  apply dictKeys_dictSet_canonical _ _ _ ?_ (by decide)
  apply dictKeys_dictSet_canonical _ _ _ ?_ (by decide)
  exact dictKeys_dictSet_canonical _ _ _ h (by decide)

/-- The Ohio glucose overlay preserves the canonical key sequence. -/
theorem keys_apply_glucose (r : PyDict) (xs : List Rat)
    (h : dictKeys r = canonical_fields) :
    dictKeys (ohio_apply_glucose r xs) = canonical_fields := by
  unfold ohio_apply_glucose
  split
  · exact h
  · apply dictKeys_dictSet_canonical _ _ _ ?_ (by decide)
    apply dictKeys_dictSet_canonical _ _ _ ?_ (by decide)
    apply dictKeys_dictSet_canonical _ _ _ ?_ (by decide)
    apply dictKeys_dictSet_canonical _ _ _ ?_ (by decide)
    exact dictKeys_dictSet_canonical _ _ _ h (by decide)

/-- The PMData sleep overlay preserves the canonical key sequence. -/
theorem keys_pm_apply_sleep (r : PyDict) (slp : PmSleepFields)
    (h : dictKeys r = canonical_fields) :
    dictKeys (pmdata_apply_sleep r slp) = canonical_fields := by
  unfold pmdata_apply_sleep
  apply dictKeys_dictSet_canonical _ _ _ ?_ (by decide)
  apply dictKeys_dictSet_canonical _ _ _ ?_ (by decide)
  apply dictKeys_dictSet_canonical _ _ _ ?_ (by decide)
  apply dictKeys_dictSet_canonical _ _ _ ?_ (by decide)
  apply dictKeys_dictSet_canonical _ _ _ ?_ (by decide)
  exact dictKeys_dictSet_canonical _ _ _ h (by decide)

/-- The PMData heart-rate overlay preserves the canonical key sequence. -/
theorem keys_pm_apply_hr (r : PyDict) (hr : PmdataHrFields)
    (h : dictKeys r = canonical_fields) :
    dictKeys (pmdata_apply_hr r hr) = canonical_fields := by
  unfold pmdata_apply_hr
  apply dictKeys_dictSet_canonical _ _ _ ?_ (by decide)
  apply dictKeys_dictSet_canonical _ _ _ ?_ (by decide)
  apply dictKeys_dictSet_canonical _ _ _ ?_ (by decide)
  exact dictKeys_dictSet_canonical _ _ _ h (by decide)

/-- The PMData activity overlay preserves the canonical key sequence. -/
theorem keys_pm_apply_activity (r : PyDict) (act : PmActivityFields)
    (h : dictKeys r = canonical_fields) :
    dictKeys (pmdata_apply_activity r act) = canonical_fields := by
  unfold pmdata_apply_activity
  apply dictKeys_dictSet_canonical _ _ _ ?_ (by decide)
  apply dictKeys_dictSet_canonical _ _ _ ?_ (by decide)
  exact dictKeys_dictSet_canonical _ _ _ h (by decide)

/-- Every merged Fitbit day record has exactly the canonical keys. -/
theorem keys_fitbit_day_record (activity : List (Nat × ActivityFields))
    (sleep : List (Nat × SleepFields)) (hr : List (Nat × HrFields)) (d : Nat) :
    dictKeys (fitbit_day_record activity sleep hr d) = canonical_fields := by
  unfold fitbit_day_record
  cases alGet activity d with
  | none =>
    cases alGet sleep d with
    | none =>
      cases alGet hr d with
      | none => exact keys_create_empty d
      | some h => exact keys_apply_hr _ _ (keys_create_empty d)
    | some s =>
      cases alGet hr d with
      | none => exact keys_apply_sleep _ _ (keys_create_empty d)
      | some h => exact keys_apply_hr _ _ (keys_apply_sleep _ _ (keys_create_empty d))
  | some a =>
    cases alGet sleep d with
    | none =>
      cases alGet hr d with
      | none => exact keys_apply_activity _ _ (keys_create_empty d)
      | some h => exact keys_apply_hr _ _ (keys_apply_activity _ _ (keys_create_empty d))
    | some s =>
      cases alGet hr d with
      | none =>
        exact keys_apply_sleep _ _ (keys_apply_activity _ _ (keys_create_empty d))
      | some h =>
        exact keys_apply_hr _ _
          (keys_apply_sleep _ _ (keys_apply_activity _ _ (keys_create_empty d)))

/-- Every merged Ohio day record has exactly the canonical keys. -/
theorem keys_ohio_day_record (glucose : List (Nat × List Rat))
    (insulin : List (Nat × InsulinDay)) (d : Nat) :
    dictKeys (ohio_day_record glucose insulin d) = canonical_fields := by
  unfold ohio_day_record
  cases alGet glucose d with
  | none =>
    cases alGet insulin d with
    | none => exact keys_create_empty d
    | some i =>
      exact dictKeys_dictSet_canonical _ _ _ (keys_create_empty d) (by decide)
  | some xs =>
    cases alGet insulin d with
    | none => exact keys_apply_glucose _ _ (keys_create_empty d)
    | some i =>
      exact dictKeys_dictSet_canonical _ _ _
        (keys_apply_glucose _ _ (keys_create_empty d)) (by decide)

/-- Every merged PMData day record has exactly the canonical keys. -/
theorem keys_pmdata_day_record (sleep : List (Nat × PmSleepFields))
    (hr : List (Nat × PmdataHrFields)) (activity : List (Nat × PmActivityFields))
    (d : Nat) :
    dictKeys (pmdata_day_record sleep hr activity d) = canonical_fields := by
  unfold pmdata_day_record
  cases alGet sleep d with
  | none =>
    cases alGet hr d with
    | none =>
      cases alGet activity d with
      | none => exact keys_create_empty d
      | some a => exact keys_pm_apply_activity _ _ (keys_create_empty d)
    | some h =>
      cases alGet activity d with
      | none => exact keys_pm_apply_hr _ _ (keys_create_empty d)
      | some a =>
        exact keys_pm_apply_activity _ _ (keys_pm_apply_hr _ _ (keys_create_empty d))
  | some s =>
    cases alGet hr d with
    | none =>
      cases alGet activity d with
      | none => exact keys_pm_apply_sleep _ _ (keys_create_empty d)
      | some a =>
        exact keys_pm_apply_activity _ _ (keys_pm_apply_sleep _ _ (keys_create_empty d))
    | some h =>
      cases alGet activity d with
      | none =>
        exact keys_pm_apply_hr _ _ (keys_pm_apply_sleep _ _ (keys_create_empty d))
      | some a =>
        exact keys_pm_apply_activity _ _
          (keys_pm_apply_hr _ _ (keys_pm_apply_sleep _ _ (keys_create_empty d)))

/-- Every MESA PSG record has exactly the canonical keys. -/
theorem keys_mesa_psg_fields (row : Row) :
    dictKeys (mesa_psg_fields row) = canonical_fields := by
  unfold mesa_psg_fields
  apply keys_ite_dictSet _ _ _ _ ?_ (by decide)
  apply keys_ite_dictSet _ _ _ _ ?_ (by decide)
  apply keys_ite_dictSet _ _ _ _ ?_ (by decide)
  apply keys_ite_dictSet _ _ _ _ ?_ (by decide)
  apply keys_ite_dictSet _ _ _ _ ?_ (by decide)
  apply keys_ite_dictSet _ _ _ _ ?_ (by decide)
  exact keys_create_empty 0

/-- Every MESA actigraphy record has exactly the canonical keys. -/
theorem keys_mesa_acti_fields (day_num : Nat) (row : Row) :
    dictKeys (mesa_acti_fields day_num row) = canonical_fields := by
  unfold mesa_acti_fields
  apply keys_ite_dictSet _ _ _ _ ?_ (by decide)
  apply keys_ite_dictSet _ _ _ _ ?_ (by decide)
  apply keys_ite_dictSet _ _ _ _ ?_ (by decide)
  exact keys_create_empty day_num

/-- Inversion for a successful Fitbit load: the three tributary loaders
succeeded and the result is their merge. -/
theorem fitbit_load_ok_inv (sid : String) (aRows sRows hRows : List Row)
    (recs : List PyDict)
    (hok : fitbit_load_health_data true sid aRows sRows hRows = Except.ok recs) :
    ∃ a s h, fitbit_load_activity_data sid aRows = Except.ok a ∧
      fitbit_load_sleep_data sid sRows = Except.ok s ∧
      fitbit_load_heart_rate_data sid hRows = Except.ok h ∧
      recs = fitbit_merge a s h := by
  unfold fitbit_load_health_data at hok
  rw [if_neg (by simp)] at hok
  cases h1 : fitbit_load_activity_data sid aRows with
  | error e =>
    rw [h1] at hok
    simp only [Except.instMonad, Bind.bind, Except.bind] at hok
    exact Except.noConfusion hok
  | ok activity =>
    rw [h1] at hok
    cases h2 : fitbit_load_sleep_data sid sRows with
    | error e =>
      rw [h2] at hok
      simp only [Except.instMonad, Bind.bind, Except.bind] at hok
      exact Except.noConfusion hok
    | ok sleep =>
      rw [h2] at hok
      cases h3 : fitbit_load_heart_rate_data sid hRows with
      | error e =>
        rw [h3] at hok
        simp only [Except.instMonad, Bind.bind, Except.bind] at hok
        exact Except.noConfusion hok
      | ok hr =>
        rw [h3] at hok
        simp only [Except.instMonad, Bind.bind, Except.bind,
          Except.ok.injEq] at hok
        exact ⟨activity, sleep, hr, rfl, rfl, rfl, hok.symm⟩

/-- C5: schema completeness.  Every record any embedded adapter's
`load_health_data` returns carries exactly the 26 canonical field names as
keys, in the canonical order, so an unavailable field is present with the
`None` sentinel rather than absent.  The clinical (NHANES) and genomics
(1000 Genomes) adapters return empty sequences, for which the property is
vacuous. -/
theorem c5_schema_completeness :
    (∀ (avail : Bool) (sid : String) (aRows sRows hRows : List Row)
       (recs : List PyDict),
       fitbit_load_health_data avail sid aRows sRows hRows = Except.ok recs →
       ∀ r ∈ recs, dictKeys r = canonical_fields) ∧
    (∀ (avail : Bool) (glucose : List (Nat × List Rat))
       (insulin : List (Nat × InsulinDay)) (meals : List (Nat × MealDay)),
       ∀ r ∈ ohio_load_health_data avail glucose insulin meals,
       dictKeys r = canonical_fields) ∧
    (∀ (avail : Bool) (sid : String) (sleepFile actiFile : Option (List Row)),
       ∀ r ∈ mesa_load_health_data avail sid sleepFile actiFile,
       dictKeys r = canonical_fields) ∧
    (∀ (avail subjExists : Bool) (sleep : List (Nat × PmSleepFields))
       (hr : List (Nat × PmdataHrFields)) (activity : List (Nat × PmActivityFields)),
       ∀ r ∈ pmdata_load_health_data avail subjExists sleep hr activity,
       dictKeys r = canonical_fields) ∧
    (∀ (sid : String), ∀ r ∈ nhanes_load_health_data sid,
       dictKeys r = canonical_fields) ∧
    (∀ (sid : String), ∀ r ∈ thousand_genomes_load_health_data sid,
       dictKeys r = canonical_fields) := by
  refine ⟨?_, ?_, ?_, ?_, ?_, ?_⟩
  · intro avail sid aRows sRows hRows recs hok r hmem
    cases avail with
    | true =>
      rcases fitbit_load_ok_inv sid aRows sRows hRows recs hok with
        ⟨activity, sleep, hr, _, _, _, rfl⟩
      unfold fitbit_merge at hmem
      rcases List.mem_map.mp hmem with ⟨d, _, rfl⟩
      exact keys_fitbit_day_record activity sleep hr d
    | false =>
      unfold fitbit_load_health_data at hok
      rw [if_pos (by simp)] at hok
      simp only [Except.ok.injEq] at hok
      rw [← hok] at hmem
      exact absurd hmem (List.not_mem_nil r)
  · intro avail glucose insulin meals r hmem
    unfold ohio_load_health_data at hmem
    split at hmem
    · exact absurd hmem (List.not_mem_nil r)
    · unfold ohio_merge at hmem
      rcases List.mem_map.mp hmem with ⟨d, _, rfl⟩
      exact keys_ohio_day_record glucose insulin d
  · intro avail sid sleepFile actiFile r hmem
    unfold mesa_load_health_data at hmem
    split at hmem
    · exact absurd hmem (List.not_mem_nil r)
    · have hperm := List.perm_insertionSort
        (fun a b => recDateNat a ≤ recDateNat b)
        ((match mesa_load_psg_data sid sleepFile with
          | Option.some r => [r]
          | Option.none => []) ++ mesa_load_actigraphy_data sid actiFile)
      rw [hperm.mem_iff] at hmem
      rcases List.mem_append.mp hmem with hpsg | hacti
      · cases hp : mesa_load_psg_data sid sleepFile with
        | none => rw [hp] at hpsg; exact absurd hpsg (List.not_mem_nil r)
        | some r0 =>
          rw [hp] at hpsg
          rcases List.mem_singleton.mp hpsg with rfl
          cases sleepFile with
          | none =>
            simp only [mesa_load_psg_data] at hp
            exact Option.noConfusion hp
          | some rows =>
            simp only [mesa_load_psg_data, Option.map_eq_some'] at hp
            rcases hp with ⟨row, _, rfl⟩
            exact keys_mesa_psg_fields row
      · unfold mesa_load_actigraphy_data at hacti
        cases actiFile with
        | none => exact absurd hacti (List.not_mem_nil r)
        | some rows =>
          rcases List.mem_map.mp hacti with ⟨p, _, rfl⟩
          exact keys_mesa_acti_fields p.1 p.2
  · intro avail subjExists sleep hr activity r hmem
    unfold pmdata_load_health_data at hmem
    split at hmem
    · exact absurd hmem (List.not_mem_nil r)
    · split at hmem
      · exact absurd hmem (List.not_mem_nil r)
      · unfold pmdata_merge at hmem
        rcases List.mem_map.mp hmem with ⟨d, _, rfl⟩
        exact keys_pmdata_day_record sleep hr activity d
  · intro sid r hmem
    exact absurd hmem (List.not_mem_nil r)
  · intro sid r hmem
    exact absurd hmem (List.not_mem_nil r)

/-- C5 witness: the Ohio merge at a one-day insulin map yields a record
whose key list is the canonical field list. -/
theorem c5_schema_completeness_witness :
    dictKeys ((ohio_load_health_data true [] [(3, InsulinDay.mk 0 0)] []).getD 0 [])
      = canonical_fields :=
  c5_schema_completeness.2.1 true [] [(3, InsulinDay.mk 0 0)] []
    ((ohio_load_health_data true [] [(3, InsulinDay.mk 0 0)] []).getD 0 [])
    (by decide)

end ClaimC5

section ClaimC6

/-- A one-day activity tributary (day 1) for the union scenario. -/
def c6_act : ActivityFields :=
  { steps := some 1000, distance_km := Option.none, active_calories := some 300,
    total_calories := some 300, active_minutes := some 40,
    sedentary_minutes := some 600 }

/-- A one-day sleep tributary (day 2) for the union scenario. -/
def c6_slp : SleepFields :=
  { sleep_duration := some 7, sleep_score := some 96 }

/-- C6: the merged result's date set is exactly the union of the dates seen
across the tributaries, for the Fitbit, CGM and PMData merges; and in the
two-tributary scenario (activity only on day 1, sleep only on day 2) the
merge has exactly two records, each carrying its own tributary's fields
with the other tributary's fields left as the `None` sentinel. -/
theorem c6_merge_union :
    (∀ (activity : List (Nat × ActivityFields)) (sleep : List (Nat × SleepFields))
       (hr : List (Nat × HrFields)) (d : Nat),
       d ∈ (fitbit_merge activity sleep hr).map recDateNat ↔
         d ∈ alKeys activity ∨ d ∈ alKeys sleep ∨ d ∈ alKeys hr) ∧
    (∀ (glucose : List (Nat × List Rat)) (insulin : List (Nat × InsulinDay))
       (meals : List (Nat × MealDay)) (d : Nat),
       d ∈ (ohio_merge glucose insulin meals).map recDateNat ↔
         d ∈ alKeys glucose ∨ d ∈ alKeys insulin ∨ d ∈ alKeys meals) ∧
    (∀ (sleep : List (Nat × PmSleepFields)) (hr : List (Nat × PmdataHrFields))
       (activity : List (Nat × PmActivityFields)) (d : Nat),
       d ∈ (pmdata_merge sleep hr activity).map recDateNat ↔
         d ∈ alKeys sleep ∨ d ∈ alKeys hr ∨ d ∈ alKeys activity) ∧
    ((fitbit_merge [(1, c6_act)] [(2, c6_slp)] []).map recDateNat = [1, 2] ∧
     dictGet ((fitbit_merge [(1, c6_act)] [(2, c6_slp)] []).getD 0 []) "steps"
       = some (Value.vint 1000) ∧
     dictGet ((fitbit_merge [(1, c6_act)] [(2, c6_slp)] []).getD 0 []) "active_calories"
       = some (Value.vint 300) ∧
     dictGet ((fitbit_merge [(1, c6_act)] [(2, c6_slp)] []).getD 0 []) "sleep_duration"
       = some Value.vnone ∧
     dictGet ((fitbit_merge [(1, c6_act)] [(2, c6_slp)] []).getD 0 []) "sleep_score"
       = some Value.vnone ∧
     dictGet ((fitbit_merge [(1, c6_act)] [(2, c6_slp)] []).getD 1 []) "sleep_duration"
       = some (Value.vrat 7) ∧
     dictGet ((fitbit_merge [(1, c6_act)] [(2, c6_slp)] []).getD 1 []) "sleep_score"
       = some (Value.vint 96) ∧
     dictGet ((fitbit_merge [(1, c6_act)] [(2, c6_slp)] []).getD 1 []) "steps"
       = some Value.vnone ∧
     dictGet ((fitbit_merge [(1, c6_act)] [(2, c6_slp)] []).getD 1 []) "active_calories"
       = some Value.vnone) := by
  refine ⟨?_, ?_, ?_, rfl, rfl, rfl, rfl, rfl, rfl, rfl, rfl, rfl⟩
  · intro activity sleep hr d
    rw [fitbit_merge_dates]
    unfold sortedDateUnion
    rw [(List.perm_insertionSort _ _).mem_iff, List.mem_dedup,
        List.mem_append, List.mem_append]
    tauto
  · intro glucose insulin meals d
    rw [ohio_merge_dates]
    unfold sortedDateUnion
    rw [(List.perm_insertionSort _ _).mem_iff, List.mem_dedup,
        List.mem_append, List.mem_append]
    tauto
  · intro sleep hr activity d
    rw [pmdata_merge_dates]
    unfold sortedDateUnion
    rw [(List.perm_insertionSort _ _).mem_iff, List.mem_dedup,
        List.mem_append, List.mem_append]
    tauto

end ClaimC6

section ClaimC7

/-- The in-place branch of `dictSet` makes the first hit for the key the
new binding. -/
theorem find?_key_map_set_self (r : PyDict) (k : String) (v : Value)
    (h : r.any (fun p => p.1 = k) = true) :
    List.find? (fun p => p.1 = k)
        (r.map (fun p => if p.1 = k then (k, v) else p)) = some (k, v) := by
  induction r with
  | nil => simp at h
  | cons p t ih =>
    simp only [List.map_cons, List.find?_cons]
    by_cases hp : p.1 = k
    · rw [if_pos hp]
      simp
    · rw [if_neg hp]
      rw [decide_eq_false hp]
      apply ih
      simpa [hp] using h

/-- Looking up the key just assigned yields the assigned value. -/
theorem dictGet_dictSet_self (r : PyDict) (k : String) (v : Value) :
    dictGet (dictSet r k v) k = some v := by
  unfold dictSet dictGet
  split
  · rw [find?_key_map_set_self r k v ‹_›]
    rfl
  · rename_i hany
    rw [List.find?_append]
    have h1 : List.find? (fun p => decide (p.1 = k)) r = Option.none := by
      rw [List.find?_eq_none]
      intro p hp hpk
      exact hany (List.any_eq_true.mpr ⟨p, hp, hpk⟩)
    rw [h1]
    simp

/-- `foldl min` over a list stays inside the seeded list. -/
theorem foldl_min_mem (xs : List Rat) : ∀ x : Rat, xs.foldl min x ∈ x :: xs := by
  induction xs with
  | nil => intro x; simp
  | cons a t ih =>
    intro x
    simp only [List.foldl_cons]
    rcases List.mem_cons.mp (ih (min x a)) with heq | hmem
    · rcases min_choice x a with hc | hc
      · rw [heq, hc]; exact List.mem_cons_self _ _
      · rw [heq, hc]; exact List.mem_cons_of_mem _ (List.mem_cons_self _ _)
    · exact List.mem_cons_of_mem _ (List.mem_cons_of_mem _ hmem)

/-- `foldl min` is a lower bound of the seeded list. -/
theorem foldl_min_le (xs : List Rat) :
    ∀ (x : Rat), ∀ y ∈ x :: xs, xs.foldl min x ≤ y := by
  induction xs with
  | nil =>
    intro x y hy
    rcases List.mem_singleton.mp hy with rfl
    exact le_refl y
  | cons a t ih =>
    intro x y hy
    simp only [List.foldl_cons]
    rcases List.mem_cons.mp hy with heq | hy1
    · rw [heq]
      exact le_trans (ih (min x a) _ (List.mem_cons_self _ _)) (min_le_left _ _)
    · rcases List.mem_cons.mp hy1 with heq | hy2
      · rw [heq]
        exact le_trans (ih (min x a) _ (List.mem_cons_self _ _)) (min_le_right _ _)
      · exact ih (min x a) y (List.mem_cons_of_mem _ hy2)

/-- `foldl max` over a list stays inside the seeded list. -/
theorem foldl_max_mem (xs : List Rat) : ∀ x : Rat, xs.foldl max x ∈ x :: xs := by
  induction xs with
  | nil => intro x; simp
  | cons a t ih =>
    intro x
    simp only [List.foldl_cons]
    rcases List.mem_cons.mp (ih (max x a)) with heq | hmem
    · rcases max_choice x a with hc | hc
      · rw [heq, hc]; exact List.mem_cons_self _ _
      · rw [heq, hc]; exact List.mem_cons_of_mem _ (List.mem_cons_self _ _)
    · exact List.mem_cons_of_mem _ (List.mem_cons_of_mem _ hmem)

/-- `foldl max` is an upper bound of the seeded list. -/
theorem foldl_max_le (xs : List Rat) :
    ∀ (x : Rat), ∀ y ∈ x :: xs, y ≤ xs.foldl max x := by
  induction xs with
  | nil =>
    intro x y hy
    rcases List.mem_singleton.mp hy with rfl
    exact le_refl y
  | cons a t ih =>
    intro x y hy
    simp only [List.foldl_cons]
    rcases List.mem_cons.mp hy with heq | hy1
    · rw [heq]
      exact le_trans (le_max_left _ _) (ih (max x a) _ (List.mem_cons_self _ _))
    · rcases List.mem_cons.mp hy1 with heq | hy2
      · rw [heq]
        exact le_trans (le_max_right _ _) (ih (max x a) _ (List.mem_cons_self _ _))
      · exact ih (max x a) y (List.mem_cons_of_mem _ hy2)

/-- C7: glucose aggregation.  For every nonempty list of one day's glucose
samples the CGM adapter's record fields are: `glucose_avg` the arithmetic
mean, `glucose_min`/`glucose_max` a member that bounds the samples below /
above, `glucose_std` the square root of the population variance (divisor
`N`, not `N-1`), and `time_in_range` the fraction of samples inside
`[70, 180]` times 100. -/
theorem c7_glucose_aggregation (d : Nat) (xs : List Rat) (hne : xs ≠ []) :
    dictGet (ohio_apply_glucose (create_empty_record d) xs) "glucose_avg"
      = some (Value.vrat (xs.sum / (xs.length : Rat))) ∧
    (∃ m, dictGet (ohio_apply_glucose (create_empty_record d) xs) "glucose_min"
        = some (Value.vrat m) ∧ m ∈ xs ∧ ∀ y ∈ xs, m ≤ y) ∧
    (∃ M, dictGet (ohio_apply_glucose (create_empty_record d) xs) "glucose_max"
        = some (Value.vrat M) ∧ M ∈ xs ∧ ∀ y ∈ xs, y ≤ M) ∧
    dictGet (ohio_apply_glucose (create_empty_record d) xs) "glucose_std"
      = some (Value.vsqrt
          ((xs.map (fun x => (x - xs.sum / (xs.length : Rat)) ^ 2)).sum
            / (xs.length : Rat))) ∧
    dictGet (ohio_apply_glucose (create_empty_record d) xs) "time_in_range"
      = some (Value.vrat
          (((xs.filter (fun x => decide (70 ≤ x ∧ x ≤ 180))).length : Rat)
            / (xs.length : Rat) * 100)) := by
  cases xs with
  | nil => exact absurd rfl hne
  | cons x t =>
    have hrw : ohio_apply_glucose (create_empty_record d) (x :: t)
        = dictSet (dictSet (dictSet (dictSet (dictSet (create_empty_record d)
            "glucose_avg" (Value.vrat ((x :: t).sum / ((x :: t).length : Rat))))
            "glucose_min" (optRatV (listMinQ (x :: t))))
            "glucose_max" (optRatV (listMaxQ (x :: t))))
            "glucose_std" (Value.vsqrt
              (((x :: t).map (fun y =>
                  (y - (x :: t).sum / ((x :: t).length : Rat)) ^ 2)).sum
                / ((x :: t).length : Rat))))
            "time_in_range" (Value.vrat
              ((((x :: t).countP (fun y => decide (70 ≤ y ∧ y ≤ 180))) : Rat)
                / ((x :: t).length : Rat) * 100)) := by
      simp only [ohio_apply_glucose, List.isEmpty_cons, Bool.false_eq_true,
        if_false]
    refine ⟨?_, ⟨t.foldl min x, ?_, ?_, ?_⟩, ⟨t.foldl max x, ?_, ?_, ?_⟩, ?_, ?_⟩
    · rw [hrw, dictGet_dictSet_ne _ _ _ _ (by decide),
          dictGet_dictSet_ne _ _ _ _ (by decide),
          dictGet_dictSet_ne _ _ _ _ (by decide),
          dictGet_dictSet_ne _ _ _ _ (by decide), dictGet_dictSet_self]
    · rw [hrw, dictGet_dictSet_ne _ _ _ _ (by decide),
          dictGet_dictSet_ne _ _ _ _ (by decide),
          dictGet_dictSet_ne _ _ _ _ (by decide), dictGet_dictSet_self]
      rfl
    · exact foldl_min_mem t x
    · exact foldl_min_le t x
    · rw [hrw, dictGet_dictSet_ne _ _ _ _ (by decide),
          dictGet_dictSet_ne _ _ _ _ (by decide), dictGet_dictSet_self]
      rfl
    · exact foldl_max_mem t x
    · exact foldl_max_le t x
    · rw [hrw, dictGet_dictSet_ne _ _ _ _ (by decide), dictGet_dictSet_self]
    · rw [hrw, dictGet_dictSet_self, List.countP_eq_length_filter]

end ClaimC7

/-- C7 witness: the day `[90, 100, 110, 120, 200]` yields
`glucose_avg = 124`, `glucose_min = 90`, `glucose_max = 200` and
`time_in_range = 80`. -/
theorem c7_glucose_aggregation_witness :
    dictGet (ohio_apply_glucose (create_empty_record 5)
        [90, 100, 110, 120, 200]) "glucose_avg" = some (Value.vrat 124) ∧
    dictGet (ohio_apply_glucose (create_empty_record 5)
        [90, 100, 110, 120, 200]) "glucose_min" = some (Value.vrat 90) ∧
    dictGet (ohio_apply_glucose (create_empty_record 5)
        [90, 100, 110, 120, 200]) "glucose_max" = some (Value.vrat 200) ∧
    dictGet (ohio_apply_glucose (create_empty_record 5)
        [90, 100, 110, 120, 200]) "time_in_range" = some (Value.vrat 80) := by
  obtain ⟨havg, ⟨m, hm, hmem, hle⟩, ⟨M, hM, hMmem, hMle⟩, hstd, htir⟩ :=
    c7_glucose_aggregation 5 [90, 100, 110, 120, 200] (by decide)
  refine ⟨?_, ?_, ?_, ?_⟩
  · rw [havg]
    congr 2
    norm_num [List.sum_cons, List.sum_nil]
  · have hm90 : m = 90 := by
      have h1 : m ≤ 90 := hle 90 (by simp)
      have h2 : (90 : Rat) ≤ m := by
        simp only [List.mem_cons, List.not_mem_nil, or_false] at hmem
        rcases hmem with heq | heq | heq | heq | heq <;> rw [heq] <;> norm_num
      linarith
    rw [hm90] at hm
    exact hm
  · have hM200 : M = 200 := by
      have h1 : (200 : Rat) ≤ M := hMle 200 (by simp)
      have h2 : M ≤ 200 := by
        simp only [List.mem_cons, List.not_mem_nil, or_false] at hMmem
        rcases hMmem with heq | heq | heq | heq | heq <;> rw [heq] <;> norm_num
      linarith
    rw [hM200] at hM
    exact hM
  · rw [htir]
    congr 2
    have hfil : ([90, 100, 110, 120, 200] : List Rat).filter
        (fun x => decide (70 ≤ x ∧ x ≤ 180)) = [90, 100, 110, 120] := by
      simp only [List.filter_cons, List.filter_nil, decide_eq_true_eq]
      norm_num
    rw [hfil]
    norm_num

section ClaimC8

/-- C8: the resting-HR percentile rule.  For every nonempty day of
heart-rate samples, both wearable adapters set `resting_hr` to the element
at index `⌊n * 0.1⌋ = n / 10` of the ascending sort of the samples — the
10th-percentile estimate — not the mean and not the minimum. -/
theorem c8_resting_hr_percentile (xs : List Int) (hne : xs ≠ []) :
    ∃ (hlt : xs.length / 10 < (List.insertionSort (· ≤ ·) xs).length),
      (fitbit_hr_aggregate xs).resting_hr
          = some ((List.insertionSort (· ≤ ·) xs).get ⟨xs.length / 10, hlt⟩) ∧
      (pmdata_hr_aggregate xs).resting_hr
          = some ((List.insertionSort (· ≤ ·) xs).get ⟨xs.length / 10, hlt⟩) := by
  have hpos : 0 < xs.length := List.length_pos.mpr hne
  have hlen : (List.insertionSort (· ≤ ·) xs).length = xs.length :=
    List.length_insertionSort _ _
  have hlt : xs.length / 10 < (List.insertionSort (· ≤ ·) xs).length := by
    rw [hlen]
    exact Nat.div_lt_self hpos (by norm_num)
  refine ⟨hlt, ?_, ?_⟩
  · unfold fitbit_hr_aggregate
    simp only [Nat.zero_max, hlen, Option.some.injEq]
    rw [List.getD_eq_getElem _ _ hlt, List.get_eq_getElem]
  · unfold pmdata_hr_aggregate
    simp only [Nat.zero_max, hlen, Option.some.injEq]
    rw [List.getD_eq_getElem _ _ hlt, List.get_eq_getElem]

/-- C8 witness: for the ten samples `[50, 52, 55, 60, 65, 70, 75, 80, 85,
90]` the resting HR is the sorted element at index `⌊10 * 0.1⌋ = 1`, i.e.
`52` — not the minimum `50` and not the mean `68.2`. -/
theorem c8_resting_hr_witness :
    (fitbit_hr_aggregate [50, 52, 55, 60, 65, 70, 75, 80, 85, 90]).resting_hr
        = some 52 ∧
    (pmdata_hr_aggregate [50, 52, 55, 60, 65, 70, 75, 80, 85, 90]).resting_hr
        = some 52 ∧
    (fitbit_hr_aggregate [50, 52, 55, 60, 65, 70, 75, 80, 85, 90]).hr_min
        = some 50 ∧
    (52 : Int) ≠ 50 ∧
    (52 : Rat) ≠ ([50, 52, 55, 60, 65, 70, 75, 80, 85, 90] : List Int).sum / 10 := by
  obtain ⟨hlt, hf, hp⟩ :=
    c8_resting_hr_percentile [50, 52, 55, 60, 65, 70, 75, 80, 85, 90] (by decide)
  refine ⟨?_, ?_, by decide, by decide, ?_⟩
  · rw [hf]; rfl
  · rw [hp]; rfl
  · norm_num [List.sum_cons, List.sum_nil]

end ClaimC8

section ClaimC9

/-- C9: failure of the orchestrated load leaves the state untouched.  For
a non-synthetic dataset id, when the registry knows no adapter for it, or
the adapter is not available, or no subject id is given and the adapter
lists no subjects, `load_dataset_data` returns `False` and the session
state is exactly what it was: no slot and no flag changes. -/
theorem c9_load_failure_leaves_state (reg : String → Option Adapter)
    (syntheticLoad : AppState → Bool × AppState) (dataset_id : String)
    (subject_id : Option String) (s : AppState)
    (hns : dataset_id ≠ SYNTHETIC_DATASET_ID)
    (hfail : reg dataset_id = Option.none ∨
      ∃ a, reg dataset_id = some a ∧
        (a.is_available = false ∨
         (subject_id = Option.none ∧ a.list_subjects = []))) :
    load_dataset_data reg syntheticLoad dataset_id subject_id s
      = (false, s) := by
  unfold load_dataset_data
  rw [if_neg hns]
  rcases hfail with hnone | ⟨a, ha, hcase⟩
  · rw [hnone]
  · rw [ha]
    show (if (!a.is_available) = true then (false, s) else _) = (false, s)
    rcases hcase with hav | ⟨hsub, hsubs⟩
    · rw [hav]
      rfl
    · rw [hsub, hsubs]
      cases a.is_available <;> rfl

/-- A session state used to exercise the failing orchestrated load. -/
def c9_state : AppState :=
  { health_data := Option.none, patient_profile := Option.none,
    lab_data := Option.none, genetic_data := Option.none,
    workouts := Option.none, data_loaded := false,
    active_dataset := "synthetic", active_subject := Option.none }

/-- C9 witness: an empty registry makes the load of `pmdata` fail with the
state returned unchanged. -/
theorem c9_load_failure_witness :
    "pmdata" ≠ SYNTHETIC_DATASET_ID ∧
    load_dataset_data (fun _ => Option.none) (fun s => (true, s)) "pmdata"
        Option.none c9_state = (false, c9_state) :=
  ⟨by decide,
   c9_load_failure_leaves_state (fun _ => Option.none) (fun s => (true, s))
     "pmdata" Option.none c9_state (by decide) (Or.inl rfl)⟩

end ClaimC9

section ClaimC10

/-- A successful lookup in a tributary map comes from a member pair. -/
theorem alGet_mem {α : Type} (l : List (Nat × α)) (k : Nat) (v : α)
    (h : alGet l k = some v) : (k, v) ∈ l := by
  unfold alGet at h
  cases hf : List.find? (fun p => decide (p.1 = k)) l with
  | none => rw [hf] at h; exact Option.noConfusion h
  | some p =>
    rw [hf] at h
    have hmem := List.mem_of_find?_eq_some hf
    have hpk := List.find?_some hf
    rw [decide_eq_true_eq] at hpk
    simp only [Option.map_some', Option.some.injEq] at h
    rcases p with ⟨k', v'⟩
    cases h
    cases hpk
    exact hmem

/-- `>>=` on a successful `Except` computation applies the continuation. -/
theorem except_bind_ok {α β : Type} (a : α) (f : α → Except String β) :
    (Except.ok a : Except String α) >>= f = f a := rfl

/-- `>>=` on a failed `Except` computation propagates the error. -/
theorem except_bind_error {α β : Type} (e : String) (f : α → Except String β) :
    (Except.error e : Except String α) >>= f = Except.error e := rfl

/-- A parsed activity row always carries the same value in
`active_calories` and `total_calories`: both come from the `Calories`
cell. -/
theorem fitbit_activity_row_calories (sid : String) (row : Row) (d : Nat)
    (f : ActivityFields)
    (h : fitbit_activity_row sid row = Except.ok (some (d, f))) :
    f.active_calories = f.total_calories := by
  unfold fitbit_activity_row at h
  split at h
  · exact Option.noConfusion (Except.ok.inj h)
  · split at h
    · exact Option.noConfusion (Except.ok.inj h)
    · rename_i d' hd
      cases h1 : pyAdd (safe_int_d0 row "VeryActiveMinutes")
          (safe_int_d0 row "FairlyActiveMinutes") with
      | error e =>
        rw [h1, except_bind_error] at h
        exact Except.noConfusion h
      | ok am1 =>
        rw [h1, except_bind_ok] at h
        cases h2 : pyAdd (some am1) (safe_int_d0 row "LightlyActiveMinutes") with
        | error e =>
          rw [h2, except_bind_error] at h
          exact Except.noConfusion h
        | ok am =>
          rw [h2, except_bind_ok] at h
          have hpair := Option.some.inj (Except.ok.inj h)
          have heq := (Prod.mk.inj hpair).2
          rw [← heq]

/-- Every entry produced by the activity-file fold keeps the two calorie
fields equal. -/
theorem fitbit_activity_fold_calories (sid : String) (rows : List Row) :
    ∀ (acc : List (Nat × ActivityFields)),
      (∀ p ∈ acc, p.2.active_calories = p.2.total_calories) →
      ∀ out, rows.foldlM (fun acc row => do
          match ← fitbit_activity_row sid row with
          | Option.none => pure acc
          | Option.some (d, f) => pure (alSet acc d f)) acc = Except.ok out →
      ∀ p ∈ out, p.2.active_calories = p.2.total_calories := by
  induction rows with
  | nil =>
    intro acc hacc out hout
    simp only [List.foldlM_nil, pure, Except.pure, Except.ok.injEq] at hout
    rw [← hout]
    exact hacc
  | cons row t ih =>
    intro acc hacc out hout
    rw [List.foldlM_cons] at hout
    cases hrow : fitbit_activity_row sid row with
    | error e =>
      rw [hrow] at hout
      simp only [Except.instMonad, Bind.bind, Except.bind] at hout
      exact Except.noConfusion hout
    | ok o =>
      rw [hrow] at hout
      simp only [Except.instMonad, Bind.bind, Except.bind, pure,
        Except.pure] at hout
      cases o with
      | none => exact ih acc hacc out hout
      | some p =>
        rcases p with ⟨d, f⟩
        refine ih (alSet acc d f) ?_ out hout
        intro q hq
        rcases mem_alSet acc d f q hq with hv | hmem
        · rw [hv]
          exact fitbit_activity_row_calories sid row d f hrow
        · exact hacc q hmem

/-- The sleep overlay leaves the two calorie fields alone. -/
theorem dictGet_cal_apply_sleep (r : PyDict) (slp : SleepFields) :
    dictGet (fitbit_apply_sleep r slp) "active_calories"
        = dictGet r "active_calories" ∧
    dictGet (fitbit_apply_sleep r slp) "total_calories"
        = dictGet r "total_calories" := by
  unfold fitbit_apply_sleep
  constructor <;>
    rw [dictGet_dictSet_ne _ _ _ _ (by decide),
        dictGet_dictSet_ne _ _ _ _ (by decide)]

/-- The heart-rate overlay leaves the two calorie fields alone. -/
theorem dictGet_cal_apply_hr (r : PyDict) (hr : HrFields) :
    dictGet (fitbit_apply_hr r hr) "active_calories"
        = dictGet r "active_calories" ∧
    dictGet (fitbit_apply_hr r hr) "total_calories"
        = dictGet r "total_calories" := by
  unfold fitbit_apply_hr
  constructor <;>
    rw [dictGet_dictSet_ne _ _ _ _ (by decide),
        dictGet_dictSet_ne _ _ _ _ (by decide),
        dictGet_dictSet_ne _ _ _ _ (by decide)]

/-- The two calorie fields of the activity overlay are its two calorie
inputs. -/
theorem dictGet_cal_apply_activity (r : PyDict) (act : ActivityFields)
    (hr : dictKeys r = canonical_fields) :
    dictGet (fitbit_apply_activity r act) "active_calories"
        = some (optIntV act.active_calories) ∧
    dictGet (fitbit_apply_activity r act) "total_calories"
        = some (optIntV act.total_calories) := by
  unfold fitbit_apply_activity
  constructor
  · rw [dictGet_dictSet_ne _ _ _ _ (by decide),
        dictGet_dictSet_ne _ _ _ _ (by decide),
        dictGet_dictSet_ne _ _ _ _ (by decide),
        dictGet_dictSet_self]
  · rw [dictGet_dictSet_ne _ _ _ _ (by decide),
        dictGet_dictSet_ne _ _ _ _ (by decide),
        dictGet_dictSet_self]

/-- C10: in every record the Fitbit adapter returns, `active_calories`
equals `total_calories` — `_load_activity_data` populates both from the
same `Calories` column, and no other tributary writes either field. -/
theorem c10_fitbit_calories_equal (avail : Bool) (sid : String)
    (aRows sRows hRows : List Row) (recs : List PyDict)
    (hok : fitbit_load_health_data avail sid aRows sRows hRows = Except.ok recs) :
    ∀ r ∈ recs, dictGet r "active_calories" = dictGet r "total_calories" := by
  intro r hmem
  cases avail with
  | false =>
    unfold fitbit_load_health_data at hok
    rw [if_pos (by simp)] at hok
    simp only [Except.ok.injEq] at hok
    rw [← hok] at hmem
    exact absurd hmem (List.not_mem_nil r)
  | true =>
    rcases fitbit_load_ok_inv sid aRows sRows hRows recs hok with
      ⟨activity, sleep, hr, hact, _, _, rfl⟩
    unfold fitbit_merge at hmem
    rcases List.mem_map.mp hmem with ⟨d, _, rfl⟩
    have hP : ∀ p ∈ activity, p.2.active_calories = p.2.total_calories := by
      apply fitbit_activity_fold_calories sid aRows [] (by intro p hp; cases hp)
        activity
      exact hact
    unfold fitbit_day_record
    have hkeys : dictKeys (create_empty_record d) = canonical_fields :=
      keys_create_empty d
    cases hga : alGet activity d with
    | none =>
      cases alGet sleep d with
      | none =>
        cases alGet hr d with
        | none => rfl
        | some h =>
          show dictGet (fitbit_apply_hr (create_empty_record d) h)
              "active_calories" = dictGet (fitbit_apply_hr
              (create_empty_record d) h) "total_calories"
          rw [(dictGet_cal_apply_hr _ h).1, (dictGet_cal_apply_hr _ h).2]
          rfl
      | some s =>
        cases alGet hr d with
        | none =>
          show dictGet (fitbit_apply_sleep (create_empty_record d) s)
              "active_calories" = dictGet (fitbit_apply_sleep
              (create_empty_record d) s) "total_calories"
          rw [(dictGet_cal_apply_sleep _ s).1, (dictGet_cal_apply_sleep _ s).2]
          rfl
        | some h =>
          show dictGet (fitbit_apply_hr (fitbit_apply_sleep
              (create_empty_record d) s) h) "active_calories"
            = dictGet (fitbit_apply_hr (fitbit_apply_sleep
              (create_empty_record d) s) h) "total_calories"
          rw [(dictGet_cal_apply_hr _ h).1, (dictGet_cal_apply_hr _ h).2,
              (dictGet_cal_apply_sleep _ s).1, (dictGet_cal_apply_sleep _ s).2]
          rfl
    | some act =>
      have heq : act.active_calories = act.total_calories :=
        hP (d, act) (alGet_mem activity d act hga)
      cases alGet sleep d with
      | none =>
        cases alGet hr d with
        | none =>
          show dictGet (fitbit_apply_activity (create_empty_record d) act)
              "active_calories" = dictGet (fitbit_apply_activity
              (create_empty_record d) act) "total_calories"
          rw [(dictGet_cal_apply_activity _ act hkeys).1,
              (dictGet_cal_apply_activity _ act hkeys).2, heq]
        | some h =>
          show dictGet (fitbit_apply_hr (fitbit_apply_activity
              (create_empty_record d) act) h) "active_calories"
            = dictGet (fitbit_apply_hr (fitbit_apply_activity
              (create_empty_record d) act) h) "total_calories"
          rw [(dictGet_cal_apply_hr _ h).1, (dictGet_cal_apply_hr _ h).2,
              (dictGet_cal_apply_activity _ act hkeys).1,
              (dictGet_cal_apply_activity _ act hkeys).2, heq]
      | some s =>
        cases alGet hr d with
        | none =>
          show dictGet (fitbit_apply_sleep (fitbit_apply_activity
              (create_empty_record d) act) s) "active_calories"
            = dictGet (fitbit_apply_sleep (fitbit_apply_activity
              (create_empty_record d) act) s) "total_calories"
          rw [(dictGet_cal_apply_sleep _ s).1, (dictGet_cal_apply_sleep _ s).2,
              (dictGet_cal_apply_activity _ act hkeys).1,
              (dictGet_cal_apply_activity _ act hkeys).2, heq]
        | some h =>
          show dictGet (fitbit_apply_hr (fitbit_apply_sleep
              (fitbit_apply_activity (create_empty_record d) act) s) h)
              "active_calories"
            = dictGet (fitbit_apply_hr (fitbit_apply_sleep
              (fitbit_apply_activity (create_empty_record d) act) s) h)
              "total_calories"
          rw [(dictGet_cal_apply_hr _ h).1, (dictGet_cal_apply_hr _ h).2,
              (dictGet_cal_apply_sleep _ s).1, (dictGet_cal_apply_sleep _ s).2,
              (dictGet_cal_apply_activity _ act hkeys).1,
              (dictGet_cal_apply_activity _ act hkeys).2, heq]

end ClaimC10

/-- A complete daily-activity row for the calories witness. -/
def c10_good_row : Row :=
  [("Id", "1503960366"), ("ActivityDate", "4/12/2016"),
   ("VeryActiveMinutes", "30"), ("FairlyActiveMinutes", "10"),
   ("LightlyActiveMinutes", "200"), ("TotalSteps", "9999"),
   ("Calories", "1820"), ("SedentaryMinutes", "700")]

/-- C10 witness: the record loaded from a concrete activity row has equal
`active_calories` and `total_calories` (both `1820`). -/
theorem c10_fitbit_calories_witness :
    dictGet (((fitbit_load_health_data true "1503960366" [c10_good_row] [] []
        ).toOption.getD []).getD 0 []) "active_calories"
      = dictGet (((fitbit_load_health_data true "1503960366" [c10_good_row]
        [] []).toOption.getD []).getD 0 []) "total_calories" :=
  c10_fitbit_calories_equal true "1503960366" [c10_good_row] [] []
    ((fitbit_load_health_data true "1503960366" [c10_good_row] [] []
      ).toOption.getD [])
    rfl
    (((fitbit_load_health_data true "1503960366" [c10_good_row] [] []
      ).toOption.getD []).getD 0 [])
    (by decide)
